import Mathlib

/-!
Verification development for the cert-bot classification-and-compliance rule
engine.  Python strings are modelled as lists of characters (`Str`), Python
`datetime.date` values as `PyDate` triples, floats as rationals, and the
read-only JSON configuration as typed records passed explicitly to every
component.  Fallible operations (`date.replace`) are modelled with `Option`
and a raising code path with `Except`.
-/

namespace CertBot

/-- Python `str`, modelled as a list of characters (ASCII discipline). -/
abbrev Str := List Char

/-- Coerce a Lean string literal to the `Str` model. -/
def str (s : String) : Str := s.data

/-- Python `str.lower()` (ASCII). -/
def lowerStr (s : Str) : Str := s.map Char.toLower

/-- Python `str.upper()` (ASCII). -/
def upperStr (s : Str) : Str := s.map Char.toUpper

/-- Characters matched by Python `\s` / stripped by `str.strip()`. -/
def isSpaceChar (c : Char) : Bool :=
  c = ' ' || c = '\t' || c = '\n' || c = '\r' || c = '\x0b' || c = '\x0c'

/-- Python `str.strip()`. -/
def stripStr (s : Str) : Str :=
  ((s.dropWhile isSpaceChar).reverse.dropWhile isSpaceChar).reverse

/-- Python `sep.join(parts)`. -/
def joinSep (sep : Str) : List Str → Str
  | [] => []
  | [x] => x
  | x :: xs => x ++ sep ++ joinSep sep xs

/-- Python truthiness fallback `a or default` for optional strings. -/
def orStr (a : Option Str) (default : Str) : Str :=
  match a with
  | some s => if s = [] then default else s
  | none => default

/-- Python `a or b` for two optional strings (`None`/empty count as falsy). -/
def pyOr (a b : Option Str) : Option Str :=
  match a with
  | some s => if s = [] then b else a
  | none => b

/-- One step of whitespace-run collapsing (`re.sub(r"\s+", " ", s)`);
the flag records whether the previous emitted character closed a run. -/
def collapseWsAux : Bool → Str → Str
  | _, [] => []
  | prevSpace, c :: rest =>
    if isSpaceChar c then
      if prevSpace then collapseWsAux true rest
      else ' ' :: collapseWsAux true rest
    else c :: collapseWsAux false rest

/-- Python `re.sub(r"\s+", " ", s)`. -/
def collapseWs (s : Str) : Str := collapseWsAux false s

/-- Word characters for Python regex `\b` boundaries (`[A-Za-z0-9_]`). -/
def isWordChar (c : Char) : Bool := c.isAlpha || c.isDigit || c = '_'

/-- Characters of the regex class `[A-Z0-9]`. -/
def isUpperDigit (c : Char) : Bool := c.isUpper || c.isDigit

/-! ### A small nondeterministic matcher for the few literal regexes
in `validate.py`.  A matcher maps a suffix to the list of suffixes that
remain after consuming one possible match. -/

/-- Matcher type: possible remainders after consuming a match. -/
def M := Str → List Str

/-- Match a literal string. -/
def mlit (lit : Str) : M := fun s =>
  if lit.isPrefixOf s then [s.drop lit.length] else []

/-- Match one character of a class. -/
def mchar (p : Char → Bool) : M := fun s =>
  match s with
  | [] => []
  | c :: r => if p c then [r] else []

/-- Sequence two matchers. -/
def mseq (a b : M) : M := fun s => (a s).flatMap b

/-- `p*`: consume any number of class characters. -/
def mstar (p : Char → Bool) : M := fun s =>
  (List.range ((s.takeWhile p).length + 1)).map (fun k => s.drop k)

/-- `p{min,}`: consume at least `min` class characters. -/
def mmin (p : Char → Bool) (min : Nat) : M := fun s =>
  ((List.range ((s.takeWhile p).length + 1)).filter (fun k => min ≤ k)).map
    (fun k => s.drop k)

/-- `p?`: optionally consume one class character. -/
def mopt (p : Char → Bool) : M := fun s => s :: mchar p s

/-- Is there a regex word boundary between positions `j-1` and `j` of `hay`? -/
def boundaryAt (hay : Str) (j : Nat) : Bool :=
  let before := if j = 0 then false else isWordChar (hay.getD (j - 1) ' ')
  let after := isWordChar (hay.getD j ' ')
  before != after

/-- Unanchored regex search with optional `\b` anchors at both ends. -/
def searchB (m : M) (startB endB : Bool) (hay : Str) : Bool :=
  (List.range (hay.length + 1)).any fun i =>
    (!startB || boundaryAt hay i) &&
    ((m (hay.drop i)).any fun rem =>
      decide (rem.length < hay.length - i) &&
      (!endB || boundaryAt hay (hay.length - rem.length)))

/-- Plain unanchored regex search. -/
def searchPlain (m : M) (hay : Str) : Bool :=
  (List.range (hay.length + 1)).any fun i => !(m (hay.drop i)).isEmpty

/-! ### Dates (`datetime.date`) -/

/-- A Python `datetime.date` value as a raw year/month/day triple. -/
structure PyDate where
  year : Nat
  month : Nat
  day : Nat
deriving DecidableEq, Repr

/-- Gregorian leap-year rule. -/
def isLeap (y : Nat) : Bool := (y % 4 = 0 && y % 100 ≠ 0) || y % 400 = 0

/-- Length of month `m` in a (non-)leap year. -/
def monthLen (leap : Bool) (m : Nat) : Nat :=
  match m with
  | 1 => 31 | 2 => if leap then 29 else 28 | 3 => 31 | 4 => 30
  | 5 => 31 | 6 => 30 | 7 => 31 | 8 => 31
  | 9 => 30 | 10 => 31 | 11 => 30 | 12 => 31
  | _ => 0

/-- Is `(y, m, d)` a constructible Python date (year 1–9999)? -/
def validDate (y m d : Nat) : Bool :=
  1 ≤ y && y ≤ 9999 && 1 ≤ m && m ≤ 12 && 1 ≤ d && d ≤ monthLen (isLeap y) m

/-- `datetime.date(y, m, d)` / `date.replace`: `none` models `ValueError`. -/
def mkDate (y m d : Nat) : Option PyDate :=
  if validDate y m d then some ⟨y, m, d⟩ else none

/-- Days in months strictly before `m`. -/
def daysBefore (leap : Bool) (m : Nat) : Nat :=
  ((List.range (m - 1)).map (fun i => monthLen leap (i + 1))).sum

/-- Proleptic Gregorian ordinal (Jan 1 of year 1 = 1), as in `date.toordinal`. -/
def toOrd (d : PyDate) : Int :=
  (365 * (d.year - 1) + (d.year - 1) / 4 - (d.year - 1) / 100 + (d.year - 1) / 400
    + daysBefore (isLeap d.year) d.month + d.day : Nat)

/-- `(a - b).days` for two dates. -/
def diffDays (a b : PyDate) : Int := toOrd a - toOrd b

/-- Python date comparison `a < b` (lexicographic on the triple). -/
def dateLt (a b : PyDate) : Bool :=
  decide (a.year < b.year ∨ (a.year = b.year ∧
    (a.month < b.month ∨ (a.month = b.month ∧ a.day < b.day))))

/-- Decimal digits of a natural number. -/
def natDigits (n : Nat) : Str := Nat.toDigits 10 n

/-- Zero-pad a number to a given width. -/
def padNum (width n : Nat) : Str :=
  List.replicate (width - (natDigits n).length) '0' ++ natDigits n

/-- Python `date.isoformat()`. -/
def isoformat (d : PyDate) : Str :=
  padNum 4 d.year ++ str "-" ++ padNum 2 d.month ++ str "-" ++ padNum 2 d.day

/-! ### Enumerations (`models.py`) -/

/-- `models.FormType`. -/
inductive FormType where
  | MTC_UNIFORM | SST_F0003 | TX_01_339
  | NY_ST_120 | NY_ST_121 | NY_ST_119_1 | NY_GOV_LETTER
  | OH_STEC_B | OH_DIRECT_PAY | PA_REV_1220 | IA_31_014A
  | MA_ST_2 | MA_ST_5 | TN_GOV | TN_EXEMPT_ORG
  | CT_CERT_119 | CT_CERT_100 | MD_GOV_1 | MD_NONGOV_1
  | FL_DR_14 | IL_E99 | IL_STAX_70 | AL_STE_1
  | WA_RESELLER | VT_S_3 | AZ_5000 | KY_51A126
  | FEDERAL_SF_1094 | FEDERAL_GSA_CARD | FEDERAL_LETTERHEAD
  | GOVERNMENT_ISSUED_CARD | STATE_ISSUED_CERT | CUSTOM_LETTER | UNKNOWN
deriving DecidableEq, Repr

/-- `models.EntityType`. -/
inductive EntityType where
  | FEDERAL_GOVERNMENT | STATE_GOVERNMENT | LOCAL_GOVERNMENT | TRIBAL
  | NONPROFIT_501C3 | EXEMPT_ORG_OTHER | FOR_PROFIT
  | EDUCATIONAL | RELIGIOUS | UNKNOWN
deriving DecidableEq, Repr

/-- `models.ValidationPathway`. -/
inductive ValidationPathway where
  | STANDARD_SELF_COMPLETED | GOV_CARD_NO_EXPIRY | GOV_CARD_WITH_EXPIRY
  | STATE_ISSUED_CERT | FEDERAL_EXEMPTION | MULTI_STATE_UNIFORM | SPECIAL_PERMIT
deriving DecidableEq, Repr

/-- `models.ExemptionCategory`. -/
inductive ExemptionCategory where
  | GOVERNMENT | RESALE | NONPROFIT | MANUFACTURING | AGRICULTURE
  | COMMON_CARRIER | INDUSTRIAL_RD | CONSTRUCTION | DIRECT_PAY
  | DIPLOMATIC | OTHER
deriving DecidableEq, Repr

/-- `models.ResaleTier`. -/
inductive ResaleTier where
  | STRONG | PLAUSIBLE | WEAK | IMPLAUSIBLE
deriving DecidableEq, Repr

/-- `models.Disposition`. -/
inductive Disposition where
  | VALIDATED | VALIDATED_WITH_NOTES | NEEDS_CORRECTION | NEEDS_HUMAN_REVIEW
deriving DecidableEq, Repr

/-- `models.CheckSeverity`. -/
inductive CheckSeverity where
  | HARD_FAIL | SOFT_FLAG | REASONABLENESS | INFO
deriving DecidableEq, Repr

/-- `models.CheckResult`. -/
structure CheckResult where
  check_name : Str
  passed : Bool
  severity : CheckSeverity
  message : Str
  field : Option Str := none
  recommendation : Option Str := none
deriving DecidableEq, Repr

/-- `models.ExtractedFields` (extraction confidence as a rational). -/
structure ExtractedFields where
  purchaser_name : Option Str := none
  purchaser_address : Option Str := none
  purchaser_state : Option Str := none
  purchaser_city : Option Str := none
  purchaser_zip : Option Str := none
  purchaser_tax_id : Option Str := none
  purchaser_fein : Option Str := none
  seller_name : Option Str := none
  seller_address : Option Str := none
  exemption_reason : Option Str := none
  exemption_category : Option ExemptionCategory := none
  exemption_states : List Str := []
  signature_present : Option Bool := none
  cert_date : Option PyDate := none
  expiration_date : Option PyDate := none
  is_blanket : Option Bool := none
  single_purchase_ref : Option Str := none
  description_of_items : Option Str := none
  business_type : Option Str := none
  form_type_detected : Option FormType := none
  account_number : Option Str := none
  issuing_authority : Option Str := none
  permit_number : Option Str := none
  permit_expiration : Option PyDate := none
  raw_text : Option Str := none
  extraction_confidence : ℚ := 0
deriving DecidableEq

/-- `.name` of an `ExemptionCategory` member (used as a config key). -/
def categoryName : ExemptionCategory → Str
  | .GOVERNMENT => str "GOVERNMENT"
  | .RESALE => str "RESALE"
  | .NONPROFIT => str "NONPROFIT"
  | .MANUFACTURING => str "MANUFACTURING"
  | .AGRICULTURE => str "AGRICULTURE"
  | .COMMON_CARRIER => str "COMMON_CARRIER"
  | .INDUSTRIAL_RD => str "INDUSTRIAL_RD"
  | .CONSTRUCTION => str "CONSTRUCTION"
  | .DIRECT_PAY => str "DIRECT_PAY"
  | .DIPLOMATIC => str "DIPLOMATIC"
  | .OTHER => str "OTHER"

/-- `.value` of an `ExemptionCategory` member. -/
def categoryValue : ExemptionCategory → Str
  | .GOVERNMENT => str "Government Entity"
  | .RESALE => str "Resale"
  | .NONPROFIT => str "Nonprofit/Tax-Exempt Organization"
  | .MANUFACTURING => str "Manufacturing"
  | .AGRICULTURE => str "Agriculture"
  | .COMMON_CARRIER => str "Common Carrier/Transportation"
  | .INDUSTRIAL_RD => str "Industrial Use / R&D"
  | .CONSTRUCTION => str "Construction Contractor"
  | .DIRECT_PAY => str "Direct Pay Permit"
  | .DIPLOMATIC => str "Diplomatic/Foreign"
  | .OTHER => str "Other"

/-- `.value` of a `FormType` member. -/
def formTypeValue : FormType → Str
  | .MTC_UNIFORM => str "MTC Uniform Certificate"
  | .SST_F0003 => str "SST Certificate of Exemption (F0003)"
  | .TX_01_339 => str "Texas 01-339"
  | .NY_ST_120 => str "New York ST-120 (Resale)"
  | .NY_ST_121 => str "New York ST-121 (Exempt Use)"
  | .NY_ST_119_1 => str "New York ST-119.1 (Exempt Org)"
  | .NY_GOV_LETTER => str "New York Government Letter"
  | .OH_STEC_B => str "Ohio STEC-B"
  | .OH_DIRECT_PAY => str "Ohio Direct Pay Permit"
  | .PA_REV_1220 => str "Pennsylvania REV-1220"
  | .IA_31_014A => str "Iowa 31-014a"
  | .MA_ST_2 => str "Massachusetts ST-2 (Exempt Org)"
  | .MA_ST_5 => str "Massachusetts ST-5 (Resale)"
  | .TN_GOV => str "Tennessee Government (RV-F1301301)"
  | .TN_EXEMPT_ORG => str "Tennessee Exempt Org (RV-F1306901)"
  | .CT_CERT_119 => str "Connecticut CERT-119"
  | .CT_CERT_100 => str "Connecticut CERT-100/101"
  | .MD_GOV_1 => str "Maryland GOV-1 Card"
  | .MD_NONGOV_1 => str "Maryland NONGOV-1 Card"
  | .FL_DR_14 => str "Florida DR-14"
  | .IL_E99 => str "Illinois E-99"
  | .IL_STAX_70 => str "Illinois STAX-70"
  | .AL_STE_1 => str "Alabama STE-1"
  | .WA_RESELLER => str "Washington Reseller Permit"
  | .VT_S_3 => str "Vermont S-3"
  | .AZ_5000 => str "Arizona Form 5000"
  | .KY_51A126 => str "Kentucky 51A126"
  | .FEDERAL_SF_1094 => str "Federal SF-1094"
  | .FEDERAL_GSA_CARD => str "Federal GSA SmartPay Card"
  | .FEDERAL_LETTERHEAD => str "Federal Agency Letterhead"
  | .GOVERNMENT_ISSUED_CARD => str "Government-Issued Exemption Card"
  | .STATE_ISSUED_CERT => str "State-Issued Certificate"
  | .CUSTOM_LETTER => str "Custom Letter/Other"
  | .UNKNOWN => str "Unknown"

/-- Decidable equality for `Except`, for evaluating modelled raising code. -/
instance {ε α : Type} [DecidableEq ε] [DecidableEq α] : DecidableEq (Except ε α) :=
  fun a b =>
  match a, b with
  | .error x, .error y =>
    if h : x = y then .isTrue (h ▸ rfl)
    else .isFalse (fun hc => h (Except.error.inj hc))
  | .ok x, .ok y =>
    if h : x = y then .isTrue (h ▸ rfl)
    else .isFalse (fun hc => h (Except.ok.inj hc))
  | .error _, .ok _ => .isFalse (fun hc => Except.noConfusion hc)
  | .ok _, .error _ => .isFalse (fun hc => Except.noConfusion hc)

/-! ### Configuration (the JSON rule tables are external data; their shapes
are modelled from the spec, §6: form identifier phrase lists, per-state
expiration rules, SST membership, MTC restrictions, reasonableness tables,
resale-tier keyword patterns, seller-name accepted variants). -/

/-- Assoc-list lookup, modelling Python `dict.get` (first matching key). -/
def lookupA {β : Type} (k : Str) : List (Str × β) → Option β
  | [] => none
  | (k0, v) :: rest => if k0 = k then some v else lookupA k rest

/-- Modelled from the spec: `seller_name_variants` in
`reasonableness_rules.json` (exact matches and acceptable variants). -/
structure SellerNameCfg where
  exact_matches : List Str := []
  acceptable_variants : List Str := []
deriving DecidableEq

/-- Modelled from the spec: one `resale_only_states` entry of
`mtc_restrictions.json`. -/
structure MtcResaleRule where
  alternative_forms : List Str := []
deriving DecidableEq

/-- Modelled from the spec: one `registration_required_states` entry of
`mtc_restrictions.json`. -/
structure MtcRegRule where
  requirement : Str := str "Required registration missing"
deriving DecidableEq

/-- Modelled from the spec: one expiration-rule entry keyed by form name. -/
structure ExpFormRule where
  rule : Option Str := none
  years : Option Nat := none
  citation : Option Str := none
deriving DecidableEq

/-- Modelled from the spec: one per-state expiration-rule entry of
`state_rules.json` (rule kind, parameters, citation, note, per-form rules).
`Option` fields model JSON key presence for the dict-merge semantics. -/
structure ExpStateRule where
  rule : Option Str := none
  years : Option Nat := none
  citation : Option Str := none
  note : Option Str := none
  forms : List (Str × ExpFormRule) := []
deriving DecidableEq

/-- The `{"rule": "never"}` fallback dict used by `_resolve_expiration_rule`. -/
def neverRule : ExpStateRule := { rule := some (str "never") }

/-- Modelled from the spec: `cert_age_flags` notes of `state_rules.json`. -/
structure CertAgeFlags where
  note_3_to_4 : Option Str := none
  note_4_to_5 : Option Str := none
  note_5_plus : Option Str := none
deriving DecidableEq

/-- Modelled from the spec: one `taxability` record of `state_rules.json`. -/
structure TaxRecord where
  no_sales_tax : Bool := false
  taxable : Option Bool := none
  rate : Option Str := none
  note : Option Str := none
deriving DecidableEq

/-- Modelled from the spec: one `exemption_validity_for_saas` record of
`reasonableness_rules.json`. -/
structure SaasCatCfg where
  note : Option Str := none
  reason : Option Str := none
  citations : List Str := []
  review_note : Option Str := none
deriving DecidableEq

/-- Modelled from the spec: one resale-tier record of
`reasonableness_rules.json` (keyword patterns plus notes). -/
structure TierCfg where
  patterns : List Str := []
  note : Option Str := none
  review_note : Option Str := none
deriving DecidableEq

/-- Modelled from the spec: one catalog entry of `form_templates.json`
(the identifier phrase list used by the Form Identifier). -/
structure FormCfg where
  identifiers : List Str := []
deriving DecidableEq

/-- Modelled from the spec: the process-wide read-only configuration
(`state_rules.json`, `mtc_restrictions.json`, `reasonableness_rules.json`,
`form_templates.json`) as one typed record. `mtcCorrectionTemplate` models
`correction_template.format(state=..., alternative_forms=...)`. -/
structure Config where
  sst_member_states : List Str := []
  expiration_rules : List (Str × ExpStateRule) := []
  cert_age_flags : CertAgeFlags := {}
  taxability : List (Str × TaxRecord) := []
  seller_name_variants : SellerNameCfg := {}
  resale_only_states : List (Str × MtcResaleRule) := []
  registration_required_states : List (Str × MtcRegRule) := []
  mtcCorrectionTemplate : Str → Str → Str :=
    fun state _ => str "MTC restricted in " ++ state ++ str "."
  saas_rules : List (Str × SaasCatCfg) := []
  resale_tiers : List (Str × TierCfg) := []
  wrong_box_government_note : Option Str := none
  forms : List (Str × FormCfg) := []

/-! ### `validate.py` — module-level tables -/

/-- `validate._FORM_STATE_MAP`. -/
def formStateMap : FormType → Option Str
  | .TX_01_339 => some (str "TX")
  | .OH_STEC_B => some (str "OH")
  | .OH_DIRECT_PAY => some (str "OH")
  | .PA_REV_1220 => some (str "PA")
  | .IA_31_014A => some (str "IA")
  | .MA_ST_2 => some (str "MA")
  | .MA_ST_5 => some (str "MA")
  | .TN_GOV => some (str "TN")
  | .TN_EXEMPT_ORG => some (str "TN")
  | .CT_CERT_119 => some (str "CT")
  | .CT_CERT_100 => some (str "CT")
  | .MD_GOV_1 => some (str "MD")
  | .MD_NONGOV_1 => some (str "MD")
  | .FL_DR_14 => some (str "FL")
  | .IL_E99 => some (str "IL")
  | .IL_STAX_70 => some (str "IL")
  | .AL_STE_1 => some (str "AL")
  | .WA_RESELLER => some (str "WA")
  | .VT_S_3 => some (str "VT")
  | .AZ_5000 => some (str "AZ")
  | .KY_51A126 => some (str "KY")
  | .NY_ST_120 => some (str "NY")
  | .NY_ST_121 => some (str "NY")
  | .NY_ST_119_1 => some (str "NY")
  | .NY_GOV_LETTER => some (str "NY")
  | _ => none

/-- `validate._FEDERAL_FORMS`. -/
def isFederalForm (ft : FormType) : Bool :=
  ft = .FEDERAL_SF_1094 || ft = .FEDERAL_GSA_CARD || ft = .FEDERAL_LETTERHEAD

/-! ### `validate.py` — completeness checks -/

/-- `validate.check_purchaser_name`. -/
def checkPurchaserName (fields : ExtractedFields) : CheckResult :=
  match fields.purchaser_name with
  | some name =>
    if name = [] || (stripStr name).length < 2 then
      { check_name := str "completeness.purchaser_name", passed := false,
        severity := .HARD_FAIL, message := str "Missing purchaser/buyer name",
        field := some (str "purchaser_name"),
        recommendation := some (str "Certificate must identify the purchaser claiming the exemption.") }
    else
      { check_name := str "completeness.purchaser_name", passed := true,
        severity := .INFO, message := str "Purchaser name present: " ++ name }
  | none =>
    { check_name := str "completeness.purchaser_name", passed := false,
      severity := .HARD_FAIL, message := str "Missing purchaser/buyer name",
      field := some (str "purchaser_name"),
      recommendation := some (str "Certificate must identify the purchaser claiming the exemption.") }

/-- The `entity_indicators` list in `check_purchaser_name_is_entity`. -/
def entityIndicators : List Str :=
  [str "llc", str "inc", str "corp", str "ltd", str "lp", str "llp", str "co",
   str "company", str "department", str "city of", str "county of",
   str "district", str "authority", str "board", str "commission",
   str "foundation", str "association", str "university", str "college",
   str "church", str "temple", str "services", str "solutions", str "group",
   str "holdings", str "enterprise", str "tribe", str "tribal", str "esd",
   str "isd", str "school", str "state of", str "town of", str "village of",
   str "parish"]

/-- Regex `[A-Za-z][A-Za-z'\-.]*` (full match). -/
def isAlphaToken (p : Str) : Bool :=
  match p with
  | [] => false
  | c :: rest => c.isAlpha && rest.all (fun x => x.isAlpha || x = '\'' || x = '-' || x = '.')

/-- Regex `[A-Z][a-zA-Z'\-.]*` (full match). -/
def isCapToken (p : Str) : Bool :=
  match p with
  | [] => false
  | c :: rest => c.isUpper && rest.all (fun x => x.isAlpha || x = '\'' || x = '-' || x = '.')

/-- `validate.check_purchaser_name_is_entity`. -/
def checkPurchaserNameIsEntity (fields : ExtractedFields) : CheckResult :=
  let name := stripStr (fields.purchaser_name.getD [])
  if name = [] then
    { check_name := str "completeness.purchaser_name_is_entity", passed := false,
      severity := .HARD_FAIL,
      message := str "Purchaser name missing; cannot verify entity vs personal name",
      field := some (str "purchaser_name"),
      recommendation := some (str "Provide full legal entity name.") }
  else
    let lower := lowerStr name
    if entityIndicators.any (fun ind => decide (ind <:+: lower)) then
      { check_name := str "completeness.purchaser_name_is_entity", passed := true,
        severity := .INFO, message := str "Purchaser name appears to be an entity." }
    else
      let parts := (List.splitOnP isSpaceChar name).filter (fun p => p ≠ [])
      let alpha_parts := parts.filter isAlphaToken
      let cap_pattern := if alpha_parts ≠ [] then alpha_parts.all isCapToken else false
      if (alpha_parts.length = 2 ∨ alpha_parts.length = 3) ∧
          alpha_parts.length = parts.length ∧ cap_pattern then
        { check_name := str "completeness.purchaser_name_is_entity", passed := false,
          severity := .HARD_FAIL,
          message := str "Purchaser name '" ++ name ++
            str "' appears to be a personal name, not a legal entity.",
          field := some (str "purchaser_name"),
          recommendation := some (str "Provide the legal entity name (e.g., LLC, government agency, nonprofit).") }
      else
        { check_name := str "completeness.purchaser_name_is_entity", passed := false,
          severity := .SOFT_FLAG,
          message := str "Purchaser name '" ++ name ++
            str "' is ambiguous and may be a sole proprietor/DBA.",
          field := some (str "purchaser_name"),
          recommendation := some (str "Confirm legal entity name on the certificate.") }

/-- Is the pathway one that requires a self-completed narrative? -/
def isSelfCompleted (pathway : ValidationPathway) : Bool :=
  pathway = .STANDARD_SELF_COMPLETED || pathway = .MULTI_STATE_UNIFORM

/-- `validate.check_purchaser_address`. -/
def checkPurchaserAddress (fields : ExtractedFields) (pathway : ValidationPathway) :
    Option CheckResult :=
  if !isSelfCompleted pathway then none
  else
    match fields.purchaser_address with
    | some addr =>
      if addr = [] || (stripStr addr).length < 5 then
        some { check_name := str "completeness.purchaser_address", passed := false,
               severity := .HARD_FAIL, message := str "Missing purchaser address",
               field := some (str "purchaser_address"),
               recommendation := some (str "Provide purchaser street/city/state address.") }
      else
        some { check_name := str "completeness.purchaser_address", passed := true,
               severity := .INFO, message := str "Purchaser address present." }
    | none =>
      some { check_name := str "completeness.purchaser_address", passed := false,
             severity := .HARD_FAIL, message := str "Missing purchaser address",
             field := some (str "purchaser_address"),
             recommendation := some (str "Provide purchaser street/city/state address.") }

/-- `validate.check_seller_name`. -/
def checkSellerName (cfg : Config) (fields : ExtractedFields)
    (pathway : ValidationPathway) : Option CheckResult :=
  if !isSelfCompleted pathway then none
  else
    let seller := stripStr (fields.seller_name.getD [])
    if seller = [] then
      some { check_name := str "completeness.seller_name", passed := false,
             severity := .HARD_FAIL, message := str "Missing seller name",
             field := some (str "seller_name"),
             recommendation := some (str "Certificate must identify seller/vendor name.") }
    else
      let accepted := (cfg.seller_name_variants.exact_matches ++
        cfg.seller_name_variants.acceptable_variants).map lowerStr
      let lower := lowerStr seller
      if lower ∈ accepted then
        some { check_name := str "completeness.seller_name", passed := true,
               severity := .INFO,
               message := str "Seller name matches accepted Fleetio variant: " ++ seller }
      else if decide (str "fleetio" <:+: lower) || decide (str "rarestep" <:+: lower) then
        some { check_name := str "completeness.seller_name", passed := true,
               severity := .INFO,
               message := str "Seller name contains Fleetio/Rarestep reference: " ++ seller }
      else if lower ∈ [str "seller", str "vendor", str "vendor name", str "seller name"] then
        some { check_name := str "completeness.seller_name", passed := false,
               severity := .SOFT_FLAG,
               message := str "Seller name '" ++ seller ++
                 str "' is generic and may be incomplete.",
               recommendation := some (str "List full legal seller name (Fleetio, Inc.).") }
      else
        some { check_name := str "completeness.seller_name", passed := false,
               severity := .HARD_FAIL,
               message := str "Seller name '" ++ seller ++
                 str "' does not match Fleetio/Rarestep variants.",
               field := some (str "seller_name"),
               recommendation := some (str "Certificate should list Fleetio (or known Rarestep/Fleetio variant) as seller.") }

/-- `validate.check_exemption_reason`. -/
def checkExemptionReason (fields : ExtractedFields) (pathway : ValidationPathway) :
    Option CheckResult :=
  if !isSelfCompleted pathway then none
  else
    match fields.exemption_reason with
    | some reason =>
      if reason = [] || (stripStr reason).length < 3 then
        some { check_name := str "completeness.exemption_reason", passed := false,
               severity := .HARD_FAIL, message := str "Missing exemption reason/type",
               field := some (str "exemption_reason"),
               recommendation := some (str "State the statutory exemption reason or category.") }
      else
        some { check_name := str "completeness.exemption_reason", passed := true,
               severity := .INFO, message := str "Exemption reason present: " ++ reason }
    | none =>
      some { check_name := str "completeness.exemption_reason", passed := false,
             severity := .HARD_FAIL, message := str "Missing exemption reason/type",
             field := some (str "exemption_reason"),
             recommendation := some (str "State the statutory exemption reason or category.") }

/-- `validate.check_signature`. -/
def checkSignature (fields : ExtractedFields) (pathway : ValidationPathway) :
    Option CheckResult :=
  if !isSelfCompleted pathway then none
  else if fields.signature_present ≠ some true then
    some { check_name := str "completeness.signature", passed := false,
           severity := .HARD_FAIL, message := str "Missing purchaser signature",
           field := some (str "signature_present"),
           recommendation := some (str "Signed certificate required for self-completed forms.") }
  else
    some { check_name := str "completeness.signature", passed := true,
           severity := .INFO, message := str "Signature present." }

/-- `validate.check_date`. -/
def checkDate (fields : ExtractedFields) (pathway : ValidationPathway) :
    Option CheckResult :=
  if !isSelfCompleted pathway then none
  else
    match fields.cert_date with
    | none =>
      some { check_name := str "completeness.cert_date", passed := false,
             severity := .HARD_FAIL, message := str "Missing certificate date",
             field := some (str "cert_date"),
             recommendation := some (str "Provide execution date on certificate.") }
    | some d =>
      some { check_name := str "completeness.cert_date", passed := true,
             severity := .INFO,
             message := str "Certificate date present: " ++ isoformat d }

/-- `validate.check_exemption_state`. -/
def checkExemptionState (fields : ExtractedFields) (state : Str) : CheckResult :=
  let normalized := upperStr (stripStr state)
  if normalized ≠ [] then
    { check_name := str "completeness.exemption_state", passed := true,
      severity := .INFO,
      message := str "Exemption state identified: " ++ normalized }
  else if fields.exemption_states ≠ [] then
    { check_name := str "completeness.exemption_state", passed := true,
      severity := .INFO,
      message := str "Exemption states listed: " ++ joinSep (str ", ") fields.exemption_states }
  else
    { check_name := str "completeness.exemption_state", passed := false,
      severity := .HARD_FAIL,
      message := str "Could not determine exemption state from certificate.",
      field := some (str "exemption_states"),
      recommendation := some (str "Identify the state claimed or use state-specific certificate form.") }

/-- Count of failed `HARD_FAIL` results in a list. -/
def hardFailCount (results : List CheckResult) : Nat :=
  (results.filter (fun r => !r.passed && decide (r.severity = CheckSeverity.HARD_FAIL))).length

/-- `validate.check_compound_failure`. -/
def checkCompoundFailure (previous : List CheckResult) : Option CheckResult :=
  if 3 ≤ hardFailCount previous then
    some { check_name := str "completeness.compound_failure", passed := false,
           severity := .HARD_FAIL,
           message := str "Compound failure: " ++ natDigits (hardFailCount previous) ++
             str " HARD_FAIL checks triggered.",
           recommendation := some (str "Request corrected certificate; multiple independent defects present.") }
  else none

/-! ### `validate.py` — form-correctness checks -/

/-- `validate.check_form_correct_for_state`. -/
def checkFormCorrectForState (form_type : FormType) (state : Str) :
    Option CheckResult :=
  let normalized_state := upperStr (stripStr state)
  if normalized_state = [] ∨ form_type = .UNKNOWN then none
  else if isFederalForm form_type then
    some { check_name := str "form_correctness.form_state_match", passed := true,
           severity := .INFO, message := str "Federal form accepted in all states." }
  else if form_type = .MTC_UNIFORM then
    some { check_name := str "form_correctness.form_state_match", passed := true,
           severity := .INFO,
           message := str "MTC Uniform form accepted for evaluation in " ++
             normalized_state ++ str " (state restrictions checked separately)." }
  else if form_type = .SST_F0003 then
    some { check_name := str "form_correctness.form_state_match", passed := true,
           severity := .INFO,
           message := str "SST form routed for " ++ normalized_state ++
             str "; membership checked separately." }
  else
    match formStateMap form_type with
    | some expected_state =>
      if expected_state ≠ normalized_state then
        some { check_name := str "form_correctness.form_state_match", passed := false,
               severity := .HARD_FAIL,
               message := formTypeValue form_type ++ str " is a " ++ expected_state ++
                 str " form and cannot support a " ++ normalized_state ++ str " claim.",
               recommendation := some (str "Use a " ++ normalized_state ++
                 str "-valid exemption form.") }
      else
        some { check_name := str "form_correctness.form_state_match", passed := true,
               severity := .INFO,
               message := str "Form type " ++ formTypeValue form_type ++
                 str " aligns with state " ++ normalized_state ++ str "." }
    | none =>
      some { check_name := str "form_correctness.form_state_match", passed := true,
             severity := .INFO,
             message := str "Form type " ++ formTypeValue form_type ++
               str " aligns with state " ++ normalized_state ++ str "." }

/-- `validate._derive_exemption_category`. -/
def deriveExemptionCategory (fields : ExtractedFields) : Option ExemptionCategory :=
  match fields.exemption_category with
  | some cat => some cat
  | none =>
    let reason := lowerStr (fields.exemption_reason.getD [])
    if str "resale" <:+: reason then some .RESALE
    else if (str "government" <:+: reason) ∨ (str "gov" <:+: reason) then some .GOVERNMENT
    else if (str "nonprofit" <:+: reason) ∨ (str "501" <:+: reason) then some .NONPROFIT
    else none

/-- Regex `\bPA\s*[-#:]?\s*[A-Z0-9]{4,}\b` (and the MD analogue). -/
def stateRegMatcher (prefixLit : Str) : M :=
  mseq (mlit prefixLit)
    (mseq (mstar isSpaceChar)
      (mseq (mopt (fun c => c = '-' || c = '#' || c = ':'))
        (mseq (mstar isSpaceChar) (mmin isUpperDigit 4))))

/-- `validate._has_state_registration`. -/
def hasStateRegistration (fields : ExtractedFields) (state : Str) : Bool :=
  let haystack := upperStr (joinSep (str " ")
    [fields.purchaser_tax_id.getD [], fields.purchaser_fein.getD [],
     fields.account_number.getD [], fields.permit_number.getD [],
     fields.raw_text.getD []])
  if state = str "PA" then
    searchB (stateRegMatcher (str "PA")) true true haystack ||
    searchPlain (mseq (mlit (str "SALES")) (mseq (mmin isSpaceChar 1)
      (mseq (mlit (str "AND")) (mseq (mmin isSpaceChar 1)
        (mseq (mlit (str "USE")) (mseq (mmin isSpaceChar 1)
          (mseq (mlit (str "TAX")) (mseq (mmin isSpaceChar 1)
            (mlit (str "LICENSE")))))))))) haystack
  else if state = str "MD" then
    searchB (stateRegMatcher (str "MD")) true true haystack ||
    searchPlain (mseq (mlit (str "REGISTRATION")) (mseq (mmin isSpaceChar 1)
      (mlit (str "NUMBER")))) haystack
  else
    searchB (mmin (fun c => isUpperDigit c || c = '-') 6) true true haystack

/-- The registration-required tail of `validate.check_mtc_resale_only`
(the code after the resale-only block). -/
def checkMtcRegistrationPart (cfg : Config) (fields : ExtractedFields)
    (normalized_state : Str) : Option CheckResult :=
  match lookupA normalized_state cfg.registration_required_states with
  | some reg =>
    if !hasStateRegistration fields normalized_state then
      some { check_name := str "form_correctness.mtc_registration_required",
             passed := false, severity := .HARD_FAIL,
             message := str "MTC " ++ normalized_state ++
               str " requirement not met: " ++ reg.requirement ++ str ".",
             recommendation := some (str "Provide required state registration/license number on certificate.") }
    else
      some { check_name := str "form_correctness.mtc_resale_only", passed := true,
             severity := .INFO,
             message := str "MTC form passes " ++ normalized_state ++
               str " resale/registration restrictions." }
  | none =>
    some { check_name := str "form_correctness.mtc_resale_only", passed := true,
           severity := .INFO,
           message := str "MTC form passes " ++ normalized_state ++
             str " resale/registration restrictions." }

/-- `validate.check_mtc_resale_only`. -/
def checkMtcResaleOnly (cfg : Config) (fields : ExtractedFields)
    (form_type : FormType) (state : Str) : Option CheckResult :=
  if form_type ≠ .MTC_UNIFORM then none
  else
    let normalized_state := upperStr (stripStr state)
    match lookupA normalized_state cfg.resale_only_states with
    | some rule =>
      if deriveExemptionCategory fields ≠ some .RESALE then
        let altText := orStr (some (joinSep (str ", ") rule.alternative_forms))
          (str "state-specific forms")
        some { check_name := str "form_correctness.mtc_resale_only", passed := false,
               severity := .HARD_FAIL,
               message := cfg.mtcCorrectionTemplate normalized_state altText,
               recommendation := some (str "Resubmit on approved form for non-resale exemption.") }
      else checkMtcRegistrationPart cfg fields normalized_state
    | none => checkMtcRegistrationPart cfg fields normalized_state

/-- `validate.check_sst_member`. -/
def checkSstMember (cfg : Config) (form_type : FormType) (state : Str) :
    Option CheckResult :=
  if form_type ≠ .SST_F0003 then none
  else
    let normalized_state := upperStr (stripStr state)
    if normalized_state ∉ cfg.sst_member_states then
      let alternative := if normalized_state = str "TX" then
          (formStateMap .TX_01_339).getD (str "a state-specific form")
        else str "a state-specific form"
      some { check_name := str "form_correctness.sst_member", passed := false,
             severity := .HARD_FAIL,
             message := str "SST Certificate of Exemption is not accepted in " ++
               normalized_state ++ str ". " ++ normalized_state ++
               str " is not an SST member state. Please submit " ++ alternative ++ str "." }
    else
      some { check_name := str "form_correctness.sst_member", passed := true,
             severity := .INFO,
             message := normalized_state ++ str " is an SST member state." }

/-- `validate.check_state_specific_requirements`. -/
def checkStateSpecificRequirements (fields : ExtractedFields)
    (form_type : FormType) (state : Str) : Option CheckResult :=
  let normalized_state := upperStr (stripStr state)
  if normalized_state = str "PA" ∧ form_type = .MTC_UNIFORM ∧
      !hasStateRegistration fields (str "PA") then
    some { check_name := str "state_specific.pa_mtc_license", passed := false,
           severity := .HARD_FAIL,
           message := str "PA + MTC requires PA Sales and Use Tax license number.",
           recommendation := some (str "Provide PA license number on certificate.") }
  else if normalized_state = str "MD" ∧ form_type = .MTC_UNIFORM ∧
      !hasStateRegistration fields (str "MD") then
    some { check_name := str "state_specific.md_mtc_registration", passed := false,
           severity := .HARD_FAIL,
           message := str "MD + MTC requires MD registration number.",
           recommendation := some (str "Provide MD registration number.") }
  else if normalized_state = str "MA" ∧ form_type = .MA_ST_2 ∧
      ¬ (str "501(c)(3)" <:+: lowerStr (fields.raw_text.getD [])) ∧
      ¬ (str "determination letter" <:+: lowerStr (fields.raw_text.getD [])) then
    some { check_name := str "state_specific.ma_st2_501c3_letter", passed := false,
           severity := .SOFT_FLAG,
           message := str "MA ST-2 generally supported by IRS 501(c)(3) determination letter; not found in packet.",
           recommendation := some (str "Request determination letter if not already on file.") }
  else if normalized_state = str "TX" ∧ fields.exemption_category = some .GOVERNMENT then
    some { check_name := str "state_specific.tx_gov_tax_id_optional", passed := true,
           severity := .INFO,
           message := str "TX government entities do not require tax ID number on exemption cert." }
  else none

/-! ### `validate.py` — temporal checks -/

/-- `validate._resolve_expiration_rule`. -/
def resolveExpirationRule (cfg : Config) (state : Str) (form_type : FormType) :
    ExpStateRule × Str :=
  if isFederalForm form_type then
    ((lookupA (str "FEDERAL") cfg.expiration_rules).getD neverRule, str "FEDERAL")
  else
    let state_rule := (lookupA state cfg.expiration_rules).getD
      ((lookupA (str "DEFAULT") cfg.expiration_rules).getD neverRule)
    let rule := state_rule.rule.getD (str "never")
    if rule ≠ str "form_specific" then (state_rule, state)
    else
      let key : Option Str :=
        match form_type with
        | .MD_GOV_1 => some (str "GOV-1")
        | .MD_NONGOV_1 => some (str "NONGOV-1")
        | .MA_ST_2 => some (str "ST-2")
        | .MA_ST_5 => some (str "ST-5")
        | .TN_GOV => some (str "gov")
        | .TN_EXEMPT_ORG => some (str "exempt_org")
        | _ => none
      let selected := (lookupA (key.getD []) state_rule.forms).getD
        { rule := some (str "never") }
      let merged : ExpStateRule :=
        { rule := selected.rule <|> state_rule.rule,
          years := selected.years <|> state_rule.years,
          citation := selected.citation <|> state_rule.citation,
          note := state_rule.note, forms := state_rule.forms }
      (merged, state ++ str ":" ++ key.getD (str "default"))

/-- `(state or "").strip().upper() or "DEFAULT"` in `check_expiration`. -/
def normStateOrDefault (state : Str) : Str :=
  let s := upperStr (stripStr state)
  if s = [] then str "DEFAULT" else s

/-- `validate._date_window_result`. -/
def dateWindowResult (today : PyDate) (check_name : Str) (expiration : PyDate)
    (state : Str) (citation : Option Str) : CheckResult :=
  let cite_suffix :=
    match citation with
    | some c => if c = [] then [] else str " Citation: " ++ c ++ str "."
    | none => []
  if dateLt expiration today then
    { check_name := check_name, passed := false, severity := .HARD_FAIL,
      message := str "Certificate expired on " ++ isoformat expiration ++
        str " per " ++ state ++ str " rules." ++ cite_suffix,
      recommendation := some (str "Obtain renewed certificate.") }
  else if diffDays expiration today ≤ 90 then
    { check_name := check_name, passed := false, severity := .SOFT_FLAG,
      message := str "Certificate expiring within 90 days (" ++
        isoformat expiration ++ str "). Queue renewal." ++ cite_suffix,
      recommendation := some (str "Request updated certificate proactively.") }
  else
    { check_name := check_name, passed := true, severity := .INFO,
      message := str "Certificate valid through " ++ isoformat expiration ++
        str " under " ++ state ++ str " expiration rules." ++ cite_suffix }

/-- `validate.check_expiration`.  An `Except.error` models an uncaught
`ValueError` escaping the `try`/`except ValueError` block (both
`date.replace` calls failing). -/
def checkExpiration (cfg : Config) (today : PyDate) (fields : ExtractedFields)
    (state : Str) (form_type : FormType) : Except String CheckResult :=
  let normalized_state := normStateOrDefault state
  let resolved := resolveExpirationRule cfg normalized_state form_type
  let rule := resolved.1.rule.getD (str "never")
  let citation := resolved.1.citation
  if rule = str "never" then
    .ok { check_name := str "expiration.state_rule", passed := true,
          severity := .INFO,
          message := stripStr (str "No expiration under rule '" ++ rule ++
            str "' (" ++ resolved.2 ++ str "). " ++ orStr citation []) }
  else if rule = str "fixed_years" ∨ rule = str "annual" then
    let years := if rule = str "annual" then 1 else resolved.1.years.getD 0
    match fields.cert_date with
    | none =>
      .ok { check_name := str "expiration.state_rule", passed := false,
            severity := .SOFT_FLAG,
            message := str "Cannot compute expiration for rule '" ++ rule ++
              str "' without certificate date.",
            field := some (str "cert_date"),
            recommendation := some (str "Extract/confirm certificate execution date.") }
    | some cert_date =>
      match mkDate (cert_date.year + years) cert_date.month cert_date.day with
      | some expiration =>
        .ok (dateWindowResult today (str "expiration.state_rule") expiration
          normalized_state citation)
      | none =>
        match mkDate (cert_date.year + years) 2 28 with
        | some expiration =>
          .ok (dateWindowResult today (str "expiration.state_rule") expiration
            normalized_state citation)
        | none => .error "ValueError: year out of range"
  else if rule = str "state_printed" ∨ rule = str "period_cert" then
    match fields.expiration_date with
    | none =>
      .ok { check_name := str "expiration.state_rule", passed := false,
            severity := .SOFT_FLAG,
            message := str "No expiration date found on state-issued certificate.",
            field := some (str "expiration_date"),
            recommendation := some (str "Capture printed expiration date from certificate.") }
    | some exp =>
      .ok (dateWindowResult today (str "expiration.state_rule") exp
        normalized_state citation)
  else
    .ok { check_name := str "expiration.state_rule", passed := true,
          severity := .INFO,
          message := str "Unhandled expiration rule '" ++ rule ++
            str "' defaulted to pass." }

/-- `validate.check_future_date`. -/
def checkFutureDate (today : PyDate) (fields : ExtractedFields) :
    Option CheckResult :=
  match fields.cert_date with
  | none => none
  | some d =>
    if dateLt today d then
      some { check_name := str "expiration.future_date", passed := false,
             severity := .HARD_FAIL,
             message := str "Certificate date " ++ isoformat d ++
               str " is in the future.",
             field := some (str "cert_date"),
             recommendation := some (str "Use actual execution date; pre-dated certificates are invalid.") }
    else
      some { check_name := str "expiration.future_date", passed := true,
             severity := .INFO,
             message := str "Certificate date is not in the future." }

/-- `validate.check_cert_age` (`365.25` is exact as the rational `1461/4`). -/
def checkCertAge (cfg : Config) (today : PyDate) (fields : ExtractedFields) :
    Option CheckResult :=
  match fields.cert_date with
  | none => none
  | some d =>
    let age_years : ℚ := (diffDays today d : ℚ) / (1461 / 4)
    if age_years < 3 then
      some { check_name := str "expiration.cert_age", passed := true,
             severity := .INFO, message := str "Certificate age within 0-3 years." }
    else if age_years < 4 then
      some { check_name := str "expiration.cert_age", passed := false,
             severity := .SOFT_FLAG,
             message := (cfg.cert_age_flags.note_3_to_4).getD
               (str "Renewal recommended within next year"),
             recommendation := some (str "Consider requesting renewal in next cycle.") }
    else if age_years < 5 then
      some { check_name := str "expiration.cert_age", passed := false,
             severity := .SOFT_FLAG,
             message := (cfg.cert_age_flags.note_4_to_5).getD
               (str "Certificate aging; request updated cert"),
             recommendation := some (str "Request refreshed certificate.") }
    else
      some { check_name := str "expiration.cert_age", passed := false,
             severity := .SOFT_FLAG,
             message := (cfg.cert_age_flags.note_5_plus).getD
               (str "Certificate is 5+ years old; best practice is to obtain updated documentation"),
             recommendation := some (str "Obtain updated documentation as best practice.") }

/-! ### `validate.py` — reasonableness checks -/

/-- `validate.check_exemption_for_saas`. -/
def checkExemptionForSaas (cfg : Config) (fields : ExtractedFields)
    (_entity_type : EntityType) (state : Str) : Option CheckResult :=
  match deriveExemptionCategory fields with
  | none => none
  | some category =>
    let category_cfg := (lookupA (categoryName category) cfg.saas_rules).getD {}
    let state_upper := upperStr (stripStr state)
    if category = .GOVERNMENT ∨ category = .NONPROFIT ∨ category = .DIRECT_PAY then
      some { check_name := str "reasonableness.exemption_for_saas", passed := true,
             severity := .INFO,
             message := category_cfg.note.getD
               (str "Exemption category is generally plausible for SaaS.") }
    else if category = .CONSTRUCTION then
      some { check_name := str "reasonableness.exemption_for_saas", passed := true,
             severity := .INFO,
             message := category_cfg.note.getD
               (str "Construction claims are plausible for fleet SaaS but state-specific."),
             recommendation := category_cfg.review_note }
    else if category = .RESALE then
      some { check_name := str "reasonableness.exemption_for_saas", passed := true,
             severity := .INFO,
             message := category_cfg.note.getD (str "Resale claims require tiering review.") }
    else if category = .MANUFACTURING ∨ category = .AGRICULTURE ∨
        category = .COMMON_CARRIER ∨ category = .INDUSTRIAL_RD then
      let cite := if category_cfg.citations ≠ [] then
          str " Citations: " ++ joinSep (str ", ") category_cfg.citations ++ str "."
        else []
      let msg₀ := category_cfg.reason.getD
        (str "Exemption category appears implausible for SaaS purchases.")
      let msg := if category = .COMMON_CARRIER ∧ state_upper ≠ [] ∧
          state_upper ≠ str "OH" then
          str "Common carrier exemption is primarily an Ohio concept and is generally not valid for SaaS in " ++
            state_upper ++ str "."
        else msg₀
      some { check_name := str "reasonableness.exemption_for_saas", passed := false,
             severity := .REASONABLENESS, message := msg ++ cite,
             recommendation := some (orStr category_cfg.review_note
               (str "Route to human review.")) }
    else
      some { check_name := str "reasonableness.exemption_for_saas", passed := false,
             severity := .REASONABLENESS,
             message := str "Exemption category '" ++ categoryValue category ++
               str "' requires human review for SaaS reasonableness.",
             recommendation := some (str "Route to tax reviewer for classification.") }

/-- The fixed `tier_map` of `validate.check_resale_tier`:
(config key, tier label, passed, severity). -/
def tierMap : List (Str × Str × Bool × CheckSeverity) :=
  [(str "TIER_1_STRONG", str "STRONG", true, .INFO),
   (str "TIER_2_PLAUSIBLE", str "PLAUSIBLE", true, .INFO),
   (str "TIER_3_WEAK", str "WEAK", false, .REASONABLENESS),
   (str "TIER_4_IMPLAUSIBLE", str "IMPLAUSIBLE", false, .REASONABLENESS)]

/-- First configured pattern occurring in the profile text. -/
def firstPattern (text : Str) : List Str → Option Str
  | [] => none
  | p :: ps => if lowerStr p <:+: text then some p else firstPattern text ps

/-- The message text of a matched resale-tier check. -/
def hitMsg (label pattern outcome : Str) : Str :=
  str "Resale tier=" ++ label ++ str " based on pattern '" ++ pattern ++
    str "' in purchaser profile; claim " ++ outcome ++ str "."

/-- The `CheckResult` built for a matched resale-tier pattern. -/
def resaleTierHit (label pattern : Str) (passed : Bool) (severity : CheckSeverity)
    (tcfg : TierCfg) : CheckResult :=
  { check_name := str "reasonableness.resale_tier", passed := passed,
    severity := severity,
    message := hitMsg label pattern
      (if passed then str "accepted" else str "flagged for review"),
    field := some (str "business_type"),
    recommendation := pyOr tcfg.note tcfg.review_note }

/-- The tier scan loop of `validate.check_resale_tier`. -/
def scanTiers (tiers : List (Str × TierCfg)) (text : Str) :
    List (Str × Str × Bool × CheckSeverity) → Option CheckResult
  | [] => none
  | (key, label, passed, severity) :: rest =>
    let tcfg := (lookupA key tiers).getD {}
    match firstPattern text tcfg.patterns with
    | some pattern => some (resaleTierHit label pattern passed severity tcfg)
    | none => scanTiers tiers text rest

/-- The default (no pattern matched) result of `validate.check_resale_tier`. -/
def resaleTierDefault : CheckResult :=
  { check_name := str "reasonableness.resale_tier", passed := false,
    severity := .REASONABLENESS,
    message := str "Resale tier=WEAK by default (no known resale pattern matched); conservative human review required.",
    field := some (str "business_type"),
    recommendation := some (str "Confirm customer has a genuine SaaS resale channel.") }

/-- `validate.check_resale_tier`. -/
def checkResaleTier (cfg : Config) (fields : ExtractedFields)
    (_entity_type : EntityType) : Option CheckResult :=
  if deriveExemptionCategory fields ≠ some .RESALE then none
  else
    let text := lowerStr (joinSep (str " ")
      (([fields.business_type, fields.purchaser_name].filterMap id).filter
        (fun s => s ≠ [])))
    match scanTiers cfg.resale_tiers text tierMap with
    | some result => some result
    | none => some resaleTierDefault

/-- `validate.check_entity_exemption_match`. -/
def checkEntityExemptionMatch (cfg : Config) (fields : ExtractedFields)
    (entity_type : EntityType) (state : Str) : Option CheckResult :=
  match deriveExemptionCategory fields with
  | none => none
  | some category =>
    let state_upper := upperStr (stripStr state)
    let is_sst := state_upper ∈ cfg.sst_member_states
    let sev₀ : CheckSeverity := if is_sst then .SOFT_FLAG else .REASONABLENESS
    let is_gov := entity_type = .FEDERAL_GOVERNMENT ∨ entity_type = .STATE_GOVERNMENT ∨
      entity_type = .LOCAL_GOVERNMENT ∨ entity_type = .TRIBAL
    let gov_wrong_box := is_gov ∧
      (category = .MANUFACTURING ∨ category = .AGRICULTURE)
    let nonprofit_resale := (entity_type = .NONPROFIT_501C3 ∨
      entity_type = .EXEMPT_ORG_OTHER ∨ entity_type = .RELIGIOUS ∨
      entity_type = .EDUCATIONAL) ∧ category = .RESALE
    let forprofit_gov := entity_type = .FOR_PROFIT ∧ category = .GOVERNMENT
    let mismatch_reason : Option Str :=
      if gov_wrong_box then
        some (str "Government entity appears to have selected an inapplicable manufacturing/agriculture exemption box.")
      else if nonprofit_resale then
        some (str "Nonprofit entity claiming resale is unusual and should be reviewed.")
      else if forprofit_gov then
        some (str "For-profit entity appears to claim a government exemption.")
      else none
    let sev : CheckSeverity := if gov_wrong_box then .INFO else sev₀
    match mismatch_reason with
    | none =>
      some { check_name := str "reasonableness.entity_exemption_match", passed := true,
             severity := .INFO,
             message := str "Entity type and exemption category are not obviously mismatched." }
    | some reason =>
      if sev = .INFO then
        some { check_name := str "reasonableness.entity_exemption_match", passed := false,
               severity := .INFO,
               message := reason ++ str " Government status still supports exemption; note only.",
               recommendation := cfg.wrong_box_government_note }
      else
        let review_message := if is_sst then
            str "SST four-corners protections may reduce seller risk."
          else str "Good-faith documentation standard applies."
        some { check_name := str "reasonableness.entity_exemption_match", passed := false,
               severity := sev,
               message := reason ++ str " " ++ review_message,
               recommendation := some (str "Route for manual review of correct exemption basis.") }

/-- `validate.check_saas_taxability`. -/
def checkSaasTaxability (cfg : Config) (state : Str) : CheckResult :=
  let state_upper := upperStr (stripStr state)
  let record := (lookupA state_upper cfg.taxability).getD {}
  if record.no_sales_tax then
    { check_name := str "info.saas_taxability", passed := true, severity := .INFO,
      message := state_upper ++ str " has no sales tax." }
  else if record.taxable = some false then
    let note :=
      match record.note with
      | some n => if n = [] then [] else str " " ++ n
      | none => []
    { check_name := str "info.saas_taxability", passed := true, severity := .INFO,
      message := str "SaaS is not taxable in " ++ state_upper ++
        str ". Certificate on file as insurance but may not be required." ++ note }
  else if record.taxable = some true then
    { check_name := str "info.saas_taxability", passed := true, severity := .INFO,
      message := str "SaaS is taxable in " ++ state_upper ++ str " at " ++
        record.rate.getD (str "state rate") ++
        str ". Certificate IS required for exempt transactions." }
  else
    { check_name := str "info.saas_taxability", passed := true, severity := .INFO,
      message := str "SaaS taxability not found for " ++ state_upper ++
        str "; verify state treatment manually." }

/-! ### `validate.run_all_checks` -/

/-- The completeness-phase entries appended before the compound-failure
step of `validate.run_all_checks` (in source order, abstentions as `none`). -/
def phase1 (cfg : Config) (fields : ExtractedFields)
    (pathway : ValidationPathway) (state : Str) : List (Option CheckResult) :=
  [some (checkPurchaserName fields),
   some (checkPurchaserNameIsEntity fields),
   checkPurchaserAddress fields pathway,
   checkSellerName cfg fields pathway,
   checkExemptionReason fields pathway,
   checkSignature fields pathway,
   checkDate fields pathway,
   some (checkExemptionState fields state)]

/-- The non-`None` completeness results seen by `check_compound_failure`. -/
def preList (cfg : Config) (fields : ExtractedFields)
    (pathway : ValidationPathway) (state : Str) : List CheckResult :=
  (phase1 cfg fields pathway state).filterMap id

/-- `validate.run_all_checks`.  `today` models `date.today()`; the
`Except` propagates the one uncaught exception path (`check_expiration`). -/
def runAllChecks (cfg : Config) (today : PyDate) (fields : ExtractedFields)
    (form_type : FormType) (entity_type : EntityType)
    (pathway : ValidationPathway) (state : Str) :
    Except String (List CheckResult) :=
  match checkExpiration cfg today fields state form_type with
  | .error e => .error e
  | .ok expiration =>
    .ok ((phase1 cfg fields pathway state ++
      [checkCompoundFailure (preList cfg fields pathway state),
       checkFormCorrectForState form_type state,
       checkMtcResaleOnly cfg fields form_type state,
       checkSstMember cfg form_type state,
       checkStateSpecificRequirements fields form_type state,
       some expiration,
       checkFutureDate today fields,
       checkCertAge cfg today fields,
       checkExemptionForSaas cfg fields entity_type state] ++
      (if deriveExemptionCategory fields = some .RESALE then
         [checkResaleTier cfg fields entity_type] else []) ++
      [checkEntityExemptionMatch cfg fields entity_type state,
       some (checkSaasTaxability cfg state)]).filterMap id)

/-! ### `disposition.py` -/

/-- The severity-partitioned failing sublists of `determine_disposition`
(`[c for c in checks if c.severity == sev and not c.passed]`). -/
def failedWith (sev : CheckSeverity) (checks : List CheckResult) : List CheckResult :=
  checks.filter (fun c => decide (c.severity = sev) && !c.passed)

/-- `disposition.determine_disposition`. -/
def determineDisposition (checks : List CheckResult) (fields : ExtractedFields)
    (form_type : FormType) (entity_type : EntityType) : Disposition × ℤ :=
  let hard_fails := failedWith .HARD_FAIL checks
  let soft_flags := failedWith .SOFT_FLAG checks
  let reason_flags := failedWith .REASONABLENESS checks
  let disposition : Disposition :=
    if hard_fails ≠ [] then .NEEDS_CORRECTION
    else if reason_flags ≠ [] then .NEEDS_HUMAN_REVIEW
    else if soft_flags ≠ [] then .VALIDATED_WITH_NOTES
    else .VALIDATED
  let confidence : ℤ := 100 - 3 * soft_flags.length - 10 * reason_flags.length
    - (if fields.extraction_confidence < 8 / 10 then 15 else 0)
    - (if form_type = .UNKNOWN then 20 else 0)
    - (if entity_type = .UNKNOWN then 10 else 0)
  (disposition, max 0 confidence)

/-- `disposition._find_resale_tier`. -/
def findResaleTier : List CheckResult → Option ResaleTier
  | [] => none
  | check :: rest =>
    if check.check_name ≠ str "reasonableness.resale_tier" then findResaleTier rest
    else
      let msg := upperStr check.message
      if str "TIER=STRONG" <:+: msg then some .STRONG
      else if str "TIER=PLAUSIBLE" <:+: msg then some .PLAUSIBLE
      else if str "TIER=WEAK" <:+: msg then some .WEAK
      else if str "TIER=IMPLAUSIBLE" <:+: msg then some .IMPLAUSIBLE
      else findResaleTier rest

/-! ### `classify.py` -/

/-- `classify.FEDERAL_INDICATORS`. -/
def FEDERAL_INDICATORS : List Str :=
  [str "United States", str "U.S. Government", str "US Government", str "GSA",
   str "Department of Defense", str "Department of the", str "Federal",
   str "U.S. Army", str "U.S. Navy", str "U.S. Air Force", str "U.S. Marine",
   str "U.S. Coast Guard", str "Department of Veterans", str "USDA",
   str "Department of Homeland", str "Department of Energy",
   str "Department of Justice", str "Department of State",
   str "Department of the Interior", str "Department of Commerce",
   str "Department of Labor", str "Department of Transportation",
   str "Environmental Protection Agency", str "EPA", str "NASA", str "FEMA",
   str "General Services Administration", str "Bureau of",
   str "National Park Service", str "Forest Service",
   str "Internal Revenue Service", str "IRS",
   str "Social Security Administration", str "SSA",
   str "Veterans Affairs", str "VA Medical"]

/-- `classify.STATE_GOVERNMENT_INDICATORS`. -/
def STATE_GOVERNMENT_INDICATORS : List Str :=
  [str "State of", str "Highway Patrol", str "State Police",
   str "State Department of", str "State Board of",
   str "Department of Transportation", str "DOT",
   str "Department of Corrections", str "State University"]

/-- `classify.LOCAL_GOVERNMENT_INDICATORS`. -/
def LOCAL_GOVERNMENT_INDICATORS : List Str :=
  [str "City of", str "County of", str "Town of", str "Township",
   str "Village of", str "Borough of", str "Parish of",
   str "Municipal", str "Municipality", str "District",
   str "Fire Department", str "Fire District", str "ESD",
   str "Emergency Services District",
   str "Police Department", str "Sheriff",
   str "Water Authority", str "Water District",
   str "Sewer Authority", str "Sewer District",
   str "Transit Authority", str "Transportation Authority",
   str "School District", str "Board of Education",
   str "Independent School District", str "ISD",
   str "Public Library", str "Library District",
   str "Housing Authority", str "Port Authority",
   str "Flood Control District"]

/-- `classify.TRIBAL_INDICATORS`. -/
def TRIBAL_INDICATORS : List Str :=
  [str "Tribe", str "Tribal", str "Nation",
   str "Indian Community", str "Pueblo", str "Reservation",
   str "Tribal Enterprise", str "Tribal Council",
   str "Band of", str "Rancheria"]

/-- `classify.EDUCATIONAL_INDICATORS`. -/
def EDUCATIONAL_INDICATORS : List Str :=
  [str "University", str "College", str "Academy",
   str "Institute of Technology", str "Institute of", str "School of"]

/-- `classify.NONPROFIT_INDICATORS`. -/
def NONPROFIT_INDICATORS : List Str :=
  [str "501(c)(3)", str "501c3", str "nonprofit", str "not-for-profit",
   str "Foundation", str "Association", str "Society",
   str "Charitable", str "Charity"]

/-- `classify.RELIGIOUS_INDICATORS`. -/
def RELIGIOUS_INDICATORS : List Str :=
  [str "Church", str "Temple", str "Mosque", str "Synagogue",
   str "Diocese", str "Ministry", str "Cathedral", str "Parish"]

/-- `classify.FOR_PROFIT_INDICATORS`. -/
def FOR_PROFIT_INDICATORS : List Str :=
  [str "LLC", str "Inc.", str "Inc", str "Corp.", str "Corp", str "Corporation",
   str "Ltd.", str "Ltd", str "LP", str "LLP", str "Co.", str "Company",
   str "Enterprises", str "Holdings", str "Group"]

/-- `classify._contains_any`. -/
def containsAny (text : Str) (indicators : List Str) : Bool :=
  indicators.any (fun ind => decide (lowerStr ind <:+: lowerStr text))

/-- The source text `classify.classify_entity` scans:
`" ".join([purchaser_name or "", raw_text or ""])`. -/
def classifySource (fields : ExtractedFields) : Str :=
  joinSep (str " ") [fields.purchaser_name.getD [], fields.raw_text.getD []]

/-- `classify.classify_entity`. -/
def classifyEntity (fields : ExtractedFields) : EntityType :=
  let source := classifySource fields
  let lower := lowerStr source
  if containsAny source FEDERAL_INDICATORS then .FEDERAL_GOVERNMENT
  else if str "state university" <:+: lower then .STATE_GOVERNMENT
  else if containsAny source STATE_GOVERNMENT_INDICATORS then .STATE_GOVERNMENT
  else if str "parish of" <:+: lower then .LOCAL_GOVERNMENT
  else if containsAny source LOCAL_GOVERNMENT_INDICATORS then .LOCAL_GOVERNMENT
  else if containsAny source (TRIBAL_INDICATORS.filter (fun i => i ≠ str "Nation")) ∨
      ((str "nation" <:+: lower) ∧ (str "tribal" <:+: lower)) then .TRIBAL
  else if containsAny source EDUCATIONAL_INDICATORS then .EDUCATIONAL
  else if containsAny source NONPROFIT_INDICATORS then .NONPROFIT_501C3
  else if (str "parish" <:+: lower) ∧ containsAny source RELIGIOUS_INDICATORS then
    .RELIGIOUS
  else if containsAny source RELIGIOUS_INDICATORS then .RELIGIOUS
  else if containsAny source FOR_PROFIT_INDICATORS then .FOR_PROFIT
  else .UNKNOWN

/-! ### `parse.identify_form_type` -/

/-- `parse._has_form_code`: `code` occurs in `text` with no `[a-z0-9]`
immediately before or after. -/
def hasFormCode (text code : Str) : Bool :=
  let lc := lowerStr code
  (List.range (text.length + 1)).any fun i =>
    lc.isPrefixOf (text.drop i) &&
    (decide (i = 0) || !(let c := text.getD (i - 1) ' '; c.isLower || c.isDigit)) &&
    (decide (i + lc.length = text.length) ||
      !(let c := text.getD (i + lc.length) ' '; c.isLower || c.isDigit))

/-- The strong-signal rules of `parse.identify_form_type`, in source order;
`none` means no strong signal fired and general catalog scoring runs. -/
def strongSignal (text : Str) : Option (FormType × ℚ) :=
  if hasFormCode text (str "dr-14") ∨
      ((str "consumer's certificate of exemption" <:+: text) ∧ (str "florida" <:+: text)) then
    some (.FL_DR_14, 98 / 100)
  else if hasFormCode text (str "rev-1220") ∨
      ((str "pennsylvania" <:+: text) ∧ (str "exemption" <:+: text) ∧
        (str "certificate" <:+: text)) then
    some (.PA_REV_1220, 98 / 100)
  else if hasFormCode text (str "01-339") then some (.TX_01_339, 98 / 100)
  else if hasFormCode text (str "stec-b") ∨ hasFormCode text (str "stec b") then
    some (.OH_STEC_B, 98 / 100)
  else if hasFormCode text (str "ste-1") ∨
      ((str "alabama" <:+: text) ∧ (str "exemption certificate" <:+: text) ∧
        (str "check proper box" <:+: text)) then
    some (.AL_STE_1, 96 / 100)
  else if hasFormCode text (str "st-121") ∨ (str "exempt use certificate" <:+: text) then
    some (.NY_ST_121, 96 / 100)
  else if (str "new york state department of taxation and finance" <:+: text) ∧
      (str "dear sir or madam" <:+: text) ∧ (str "governmental entities" <:+: text) then
    some (.NY_GOV_LETTER, 97 / 100)
  else if hasFormCode text (str "st-119.1") ∨ hasFormCode text (str "119.1") then
    some (.NY_ST_119_1, 96 / 100)
  else none

/-- `parse._safe_form_type`: enum member name to `FormType`, default UNKNOWN. -/
def safeFormType (name : Str) : FormType :=
  if name = str "MTC_UNIFORM" then .MTC_UNIFORM
  else if name = str "SST_F0003" then .SST_F0003
  else if name = str "TX_01_339" then .TX_01_339
  else if name = str "NY_ST_120" then .NY_ST_120
  else if name = str "NY_ST_121" then .NY_ST_121
  else if name = str "NY_ST_119_1" then .NY_ST_119_1
  else if name = str "NY_GOV_LETTER" then .NY_GOV_LETTER
  else if name = str "OH_STEC_B" then .OH_STEC_B
  else if name = str "OH_DIRECT_PAY" then .OH_DIRECT_PAY
  else if name = str "PA_REV_1220" then .PA_REV_1220
  else if name = str "IA_31_014A" then .IA_31_014A
  else if name = str "MA_ST_2" then .MA_ST_2
  else if name = str "MA_ST_5" then .MA_ST_5
  else if name = str "TN_GOV" then .TN_GOV
  else if name = str "TN_EXEMPT_ORG" then .TN_EXEMPT_ORG
  else if name = str "CT_CERT_119" then .CT_CERT_119
  else if name = str "CT_CERT_100" then .CT_CERT_100
  else if name = str "MD_GOV_1" then .MD_GOV_1
  else if name = str "MD_NONGOV_1" then .MD_NONGOV_1
  else if name = str "FL_DR_14" then .FL_DR_14
  else if name = str "IL_E99" then .IL_E99
  else if name = str "IL_STAX_70" then .IL_STAX_70
  else if name = str "AL_STE_1" then .AL_STE_1
  else if name = str "WA_RESELLER" then .WA_RESELLER
  else if name = str "VT_S_3" then .VT_S_3
  else if name = str "AZ_5000" then .AZ_5000
  else if name = str "KY_51A126" then .KY_51A126
  else if name = str "FEDERAL_SF_1094" then .FEDERAL_SF_1094
  else if name = str "FEDERAL_GSA_CARD" then .FEDERAL_GSA_CARD
  else if name = str "FEDERAL_LETTERHEAD" then .FEDERAL_LETTERHEAD
  else if name = str "GOVERNMENT_ISSUED_CARD" then .GOVERNMENT_ISSUED_CARD
  else if name = str "STATE_ISSUED_CERT" then .STATE_ISSUED_CERT
  else if name = str "CUSTOM_LETTER" then .CUSTOM_LETTER
  else .UNKNOWN

/-- One iteration of the catalog-scoring loop of `parse.identify_form_type`.
State: (best form, best match count, best identifier total). -/
def scoreStep (text : Str) (acc : FormType × Nat × Nat) (entry : Str × FormCfg) :
    FormType × Nat × Nat :=
  if entry.1 = str "NY_ST_119_1" ∧
      ¬ (hasFormCode text (str "st-119.1") ∨ hasFormCode text (str "119.1")) then acc
  else
    let matched := (entry.2.identifiers.filter
      (fun ident => ident ≠ [] ∧ lowerStr ident <:+: text)).length
    if matched = 0 then acc
    else
      let total := if entry.2.identifiers.length = 0 then 1
        else entry.2.identifiers.length
      let candidate := safeFormType entry.1
      if acc.1 = .UNKNOWN ∨ acc.2.1 < matched then (candidate, matched, total)
      else if matched = acc.2.1 ∧
          (candidate = .TX_01_339 ∨ candidate = .MD_GOV_1 ∨ candidate = .NY_ST_119_1) ∧
          (acc.1 = .MTC_UNIFORM ∨ acc.1 = .SST_F0003) then
        (candidate, matched, total)
      else acc

/-- The `strong_tokens` table of `parse.identify_form_type`. -/
def strongTokens : FormType → List Str
  | .TX_01_339 => [str "01-339", str "form 01-339"]
  | .MD_GOV_1 => [str "gov-1"]
  | .SST_F0003 => [str "f0003"]
  | .FEDERAL_SF_1094 => [str "sf-1094", str "standard form 1094"]
  | _ => []

/-- Python `round(q, 3)` modelled on rationals. -/
def round3 (q : ℚ) : ℚ := (round (q * 1000) : ℤ) / 1000

/-- `parse.identify_form_type`. -/
def identifyFormType (cfg : Config) (raw_text : Str) : FormType × ℚ :=
  if raw_text = [] then (.UNKNOWN, 0)
  else
    let text := lowerStr raw_text
    match strongSignal text with
    | some result => result
    | none =>
      let best := cfg.forms.foldl (scoreStep text) (.UNKNOWN, 0, 1)
      if best.1 = .UNKNOWN then (.UNKNOWN, 0)
      else
        let conf₀ : ℚ := min 1 ((best.2.1 : ℚ) / (best.2.2 : ℚ))
        let conf₁ := if (strongTokens best.1).any (fun t => decide (t <:+: text)) then
            max conf₀ (95 / 100)
          else conf₀
        let conf₂ := if best.2.1 = 1 ∧ (str "exemption certificate" <:+: text) then
            min conf₁ (45 / 100)
          else conf₁
        (best.1, round3 conf₂)

/-! ### `validate.find_duplicates` -/

/-- `validate._normalize_name`. -/
def normalizeName (value : Option Str) : Str :=
  match value with
  | none => []
  | some v =>
    if v = [] then []
    else
      let cleaned := (lowerStr v).filter
        (fun c => c.isLower || c.isDigit || isSpaceChar c)
      stripStr (collapseWs cleaned)

/-- One row of the batch handed to `validate.find_duplicates`
(the result-dict fields it reads, all Python-optional strings). -/
structure DupRec where
  customer_name : Option Str := none
  state : Option Str := none
  exemption_category : Option Str := none
  cert_date : Option Str := none
  expiration_date : Option Str := none
  form_type : Option Str := none
  cert_id : Option Str := none
  avalara_cert_id : Option Str := none
  validated_at : Option Str := none
deriving DecidableEq, Repr

/-- The fingerprint computed for one row by `validate.find_duplicates`. -/
def fingerprint (r : DupRec) : Str :=
  let customer := normalizeName r.customer_name
  let state := upperStr (stripStr (r.state.getD []))
  let exemption_category := lowerStr (stripStr (r.exemption_category.getD []))
  let cert_date := orStr r.cert_date (orStr r.expiration_date [])
  let form_type := stripStr (r.form_type.getD [])
  if cert_date ≠ [] then
    customer ++ str "|" ++ state ++ str "|" ++ exemption_category ++
      str "|" ++ cert_date
  else
    customer ++ str "|" ++ state ++ str "|" ++ form_type

/-- `dict.setdefault(fingerprint, []).append(result)` over an ordered
association list. -/
def addToBuckets (bs : List (Str × List DupRec)) (k : Str) (r : DupRec) :
    List (Str × List DupRec) :=
  match bs with
  | [] => [(k, [r])]
  | (k0, l0) :: rest =>
    if k0 = k then (k0, l0 ++ [r]) :: rest else (k0, l0) :: addToBuckets rest k r

/-- The bucket map built by the first loop of `validate.find_duplicates`. -/
def buildBuckets (results : List DupRec) : List (Str × List DupRec) :=
  results.foldl (fun bs r => addToBuckets bs (fingerprint r) r) []

/-- The bucket stored under key `k` (empty when absent). -/
def bucketOf (bs : List (Str × List DupRec)) (k : Str) : List DupRec :=
  (lookupA k bs).getD []

/-- Python string `<` (code-point lexicographic). -/
def strLt : Str → Str → Bool
  | [], [] => false
  | [], _ :: _ => true
  | _ :: _, [] => false
  | a :: as, b :: bs => if a < b then true else if b < a then false else strLt as bs

/-- The per-bucket sort key of `validate.find_duplicates`:
`str(item.get("cert_date") or item.get("validated_at") or "")`. -/
def dupSortKey (r : DupRec) : Str := orStr r.cert_date (orStr r.validated_at [])

/-- Stable insertion for Python `sorted` by key: the new element goes after
every element whose key is less than or equal to its own. -/
def stableInsert (r : DupRec) : List DupRec → List DupRec
  | [] => [r]
  | x :: xs =>
    if !strLt (dupSortKey r) (dupSortKey x) then x :: stableInsert r xs
    else r :: x :: xs

/-- Python `sorted(bucket, key=sort_key)` (stable, ascending). -/
def sortBucket (bucket : List DupRec) : List DupRec :=
  bucket.foldl (fun acc x => stableInsert x acc) []

/-- `result.get("cert_id") or result.get("avalara_cert_id") or "unknown"`. -/
def dupId (r : DupRec) : Str :=
  orStr r.cert_id (orStr r.avalara_cert_id (str "unknown"))

/-- The pair emission of `validate.find_duplicates` for one bucket. -/
def bucketPairs (bucket : List DupRec) : List (Str × Str) :=
  if bucket.length < 2 then []
  else
    match sortBucket bucket with
    | [] => []
    | canonical :: rest => rest.map (fun d => (dupId canonical, dupId d))

/-- `validate.find_duplicates`. -/
def findDuplicates (results : List DupRec) : List (Str × Str) :=
  ((buildBuckets results).map (fun b => bucketPairs b.2)).flatten

/-! ## Theorems -/

/-- A failing check of the given severity exists iff the partition list
is non-empty. -/
theorem failedWith_ne_nil (sev : CheckSeverity) (checks : List CheckResult) :
    failedWith sev checks ≠ [] ↔
      ∃ c ∈ checks, c.severity = sev ∧ c.passed = false := by
  rw [failedWith, Ne, List.filter_eq_nil_iff]
  push_neg
  constructor
  · rintro ⟨c, hc, hp⟩
    refine ⟨c, hc, ?_⟩
    revert hp
    cases hps : c.passed <;> simp [hps]
  · rintro ⟨c, hc, hs, hp⟩
    exact ⟨c, hc, by simp [hs, hp]⟩

/-- Removing the passing checks leaves every severity partition unchanged. -/
theorem failedWith_filter_not_passed (sev : CheckSeverity) (checks : List CheckResult) :
    failedWith sev (checks.filter (fun c => !c.passed)) = failedWith sev checks := by
  induction checks with
  | nil => rfl
  | cons c cs ih =>
    cases hp : c.passed
    · simp only [failedWith] at ih ⊢
      simp only [List.filter_cons, hp, Bool.not_false, Bool.and_true, if_true]
      rw [ih]
    · simp only [failedWith] at ih ⊢
      simp [List.filter_cons, hp, ih]

/-- The disposition component as an explicit severity ladder. -/
theorem determineDisposition_fst (checks : List CheckResult)
    (fields : ExtractedFields) (ft : FormType) (et : EntityType) :
    (determineDisposition checks fields ft et).1 =
      (if failedWith .HARD_FAIL checks ≠ [] then Disposition.NEEDS_CORRECTION
       else if failedWith .REASONABLENESS checks ≠ [] then Disposition.NEEDS_HUMAN_REVIEW
       else if failedWith .SOFT_FLAG checks ≠ [] then Disposition.VALIDATED_WITH_NOTES
       else Disposition.VALIDATED) := rfl

/-- C1: `determine_disposition` returns NEEDS_CORRECTION iff some check has
severity HARD_FAIL and failed; otherwise NEEDS_HUMAN_REVIEW iff some
REASONABLENESS check failed; otherwise VALIDATED_WITH_NOTES iff some
SOFT_FLAG check failed; otherwise VALIDATED.  Passing checks never
influence the disposition regardless of their severity (the disposition is
a function of the failing checks alone). -/
theorem determine_disposition_severity_ladder (checks : List CheckResult)
    (fields : ExtractedFields) (ft : FormType) (et : EntityType) :
    (((determineDisposition checks fields ft et).1 = Disposition.NEEDS_CORRECTION) ↔
      ∃ c ∈ checks, c.severity = CheckSeverity.HARD_FAIL ∧ c.passed = false)
    ∧ (((determineDisposition checks fields ft et).1 = Disposition.NEEDS_HUMAN_REVIEW) ↔
      ((¬ ∃ c ∈ checks, c.severity = CheckSeverity.HARD_FAIL ∧ c.passed = false) ∧
        ∃ c ∈ checks, c.severity = CheckSeverity.REASONABLENESS ∧ c.passed = false))
    ∧ (((determineDisposition checks fields ft et).1 = Disposition.VALIDATED_WITH_NOTES) ↔
      ((¬ ∃ c ∈ checks, c.severity = CheckSeverity.HARD_FAIL ∧ c.passed = false) ∧
        (¬ ∃ c ∈ checks, c.severity = CheckSeverity.REASONABLENESS ∧ c.passed = false) ∧
        ∃ c ∈ checks, c.severity = CheckSeverity.SOFT_FLAG ∧ c.passed = false))
    ∧ (((determineDisposition checks fields ft et).1 = Disposition.VALIDATED) ↔
      ((¬ ∃ c ∈ checks, c.severity = CheckSeverity.HARD_FAIL ∧ c.passed = false) ∧
        (¬ ∃ c ∈ checks, c.severity = CheckSeverity.REASONABLENESS ∧ c.passed = false) ∧
        ¬ ∃ c ∈ checks, c.severity = CheckSeverity.SOFT_FLAG ∧ c.passed = false))
    ∧ ((determineDisposition checks fields ft et).1 =
        (determineDisposition (checks.filter (fun c => !c.passed)) fields ft et).1) := by
  have hinv : (determineDisposition checks fields ft et).1 =
      (determineDisposition (checks.filter (fun c => !c.passed)) fields ft et).1 := by
    rw [determineDisposition_fst, determineDisposition_fst,
      failedWith_filter_not_passed, failedWith_filter_not_passed,
      failedWith_filter_not_passed]
  rw [determineDisposition_fst]
  rw [← failedWith_ne_nil, ← failedWith_ne_nil, ← failedWith_ne_nil]
  refine ⟨?_, ?_, ?_, ?_, hinv⟩ <;> split_ifs with h1 h2 h3 <;> simp_all

/-- The confidence component as an explicit formula over the severity
partitions. -/
theorem determineDisposition_snd (checks : List CheckResult)
    (fields : ExtractedFields) (ft : FormType) (et : EntityType) :
    (determineDisposition checks fields ft et).2 =
      max 0 (100 - 3 * ((failedWith .SOFT_FLAG checks).length : ℤ)
        - 10 * ((failedWith .REASONABLENESS checks).length : ℤ)
        - (if fields.extraction_confidence < 8 / 10 then 15 else 0)
        - (if ft = FormType.UNKNOWN then 20 else 0)
        - (if et = EntityType.UNKNOWN then 10 else 0)) := rfl

/-- Count of failed checks of a given severity (the claim-side counting). -/
def failedCount (sev : CheckSeverity) (checks : List CheckResult) : Nat :=
  checks.countP (fun c => !c.passed && decide (c.severity = sev))

/-- The two countings agree. -/
theorem failedCount_eq_length (sev : CheckSeverity) (checks : List CheckResult) :
    failedCount sev checks = (failedWith sev checks).length := by
  rw [failedCount, failedWith, List.countP_eq_length_filter]
  congr 1
  apply List.filter_congr
  intro c _
  cases hc : c.passed <;> simp [hc]

/-- C3: the confidence returned by `determine_disposition` equals
`max 0 (100 − 3·softCount − 10·reasonCount − 15·[extraction < 0.8]
− 20·[form UNKNOWN] − 10·[entity UNKNOWN])`; consequently it lies in
`[0, 100]` and is non-increasing in the failed soft-flag and
reasonableness counts with the other factors held fixed. -/
theorem determine_disposition_confidence (checks : List CheckResult)
    (fields : ExtractedFields) (ft : FormType) (et : EntityType) :
    ((determineDisposition checks fields ft et).2 =
      max 0 (100 - 3 * (failedCount .SOFT_FLAG checks : ℤ)
        - 10 * (failedCount .REASONABLENESS checks : ℤ)
        - (if fields.extraction_confidence < 8 / 10 then 15 else 0)
        - (if ft = FormType.UNKNOWN then 20 else 0)
        - (if et = EntityType.UNKNOWN then 10 else 0)))
    ∧ (0 ≤ (determineDisposition checks fields ft et).2 ∧
        (determineDisposition checks fields ft et).2 ≤ 100)
    ∧ (∀ checks' : List CheckResult,
        failedCount .SOFT_FLAG checks ≤ failedCount .SOFT_FLAG checks' →
        failedCount .REASONABLENESS checks ≤ failedCount .REASONABLENESS checks' →
        (determineDisposition checks' fields ft et).2 ≤
          (determineDisposition checks fields ft et).2) := by
  have h15 : (0 : ℤ) ≤ (if fields.extraction_confidence < 8 / 10 then 15 else 0) := by
    split <;> norm_num
  have h20 : (0 : ℤ) ≤ (if ft = FormType.UNKNOWN then 20 else 0) := by
    split <;> norm_num
  have h10 : (0 : ℤ) ≤ (if et = EntityType.UNKNOWN then 10 else 0) := by
    split <;> norm_num
  refine ⟨?_, ⟨?_, ?_⟩, ?_⟩
  · rw [determineDisposition_snd, failedCount_eq_length, failedCount_eq_length]
  · rw [determineDisposition_snd]
    exact le_max_left 0 _
  · rw [determineDisposition_snd]
    apply max_le (by norm_num)
    have hs : (0 : ℤ) ≤ 3 * ((failedWith .SOFT_FLAG checks).length : ℤ) := by positivity
    have hr : (0 : ℤ) ≤ 10 * ((failedWith .REASONABLENESS checks).length : ℤ) := by
      positivity
    linarith
  · intro checks' hsoft hreason
    rw [determineDisposition_snd, determineDisposition_snd]
    apply max_le_max le_rfl
    rw [← failedCount_eq_length, ← failedCount_eq_length,
      ← failedCount_eq_length, ← failedCount_eq_length]
    have hs : (failedCount .SOFT_FLAG checks : ℤ) ≤ failedCount .SOFT_FLAG checks' := by
      exact_mod_cast hsoft
    have hr : (failedCount .REASONABLENESS checks : ℤ) ≤
        failedCount .REASONABLENESS checks' := by exact_mod_cast hreason
    linarith

/-- A lone failed soft-flag check. -/
def softFlagOnly : CheckResult :=
  { check_name := str "x", passed := false,
    severity := CheckSeverity.SOFT_FLAG, message := str "m" }

/-- C3 (witness): adding a failed soft flag cannot increase the confidence
score. -/
theorem determine_disposition_confidence_witness :
    (determineDisposition [softFlagOnly] {} FormType.TX_01_339
      EntityType.FOR_PROFIT).2 ≤
    (determineDisposition [] {} FormType.TX_01_339 EntityType.FOR_PROFIT).2 :=
  (determine_disposition_confidence [] {} FormType.TX_01_339
    EntityType.FOR_PROFIT).2.2 [softFlagOnly] (by decide) (by decide)

/-- The `.ok` payload of a check run (empty list on error). -/
def okList (e : Except String (List CheckResult)) : List CheckResult :=
  e.toOption.getD []

/-- An empty configuration (every rule table empty / defaulted). -/
def cfgEmpty : Config := {}

/-- A fixed evaluation date used for concrete runs. -/
def todayFix : PyDate := ⟨2026, 10, 12⟩

/-- A certificate with no purchaser name and a future execution date. -/
def fieldsFutureNoName : ExtractedFields :=
  { purchaser_name := none, cert_date := some ⟨2026, 10, 13⟩ }

/-- C2 (counterexample): a run whose returned list contains three failed
HARD_FAIL checks, none of which is the compound-failure check, and yet no
`completeness.compound_failure` entry is present — the two HARD_FAILs from
the missing purchaser name precede the compound step, but the future-date
HARD_FAIL is emitted after it and is not counted. -/
theorem run_all_checks_compound_counterexample :
    runAllChecks cfgEmpty todayFix fieldsFutureNoName FormType.TX_01_339
        EntityType.UNKNOWN ValidationPathway.FEDERAL_EXEMPTION (str "TX") =
      Except.ok (okList (runAllChecks cfgEmpty todayFix fieldsFutureNoName
        FormType.TX_01_339 EntityType.UNKNOWN ValidationPathway.FEDERAL_EXEMPTION
        (str "TX"))) ∧
    3 ≤ hardFailCount (okList (runAllChecks cfgEmpty todayFix fieldsFutureNoName
      FormType.TX_01_339 EntityType.UNKNOWN ValidationPathway.FEDERAL_EXEMPTION
      (str "TX"))) ∧
    (okList (runAllChecks cfgEmpty todayFix fieldsFutureNoName FormType.TX_01_339
      EntityType.UNKNOWN ValidationPathway.FEDERAL_EXEMPTION (str "TX"))).all
        (fun c => !(decide (c.check_name = str "completeness.compound_failure"))) =
      true := by
  with_unfolding_all decide

/-- C2 (amended): whenever the completeness-phase checks that precede the
compound-failure step (purchaser name, entity-likeness, address, seller,
reason, signature, date, exemption state) contain three or more failed
HARD_FAIL checks, the returned list contains the failed HARD_FAIL check
`completeness.compound_failure` in addition to those originals. -/
theorem run_all_checks_compound_failure (cfg : Config) (today : PyDate)
    (fields : ExtractedFields) (form_type : FormType) (entity_type : EntityType)
    (pathway : ValidationPathway) (state : Str) (l : List CheckResult)
    (h3 : 3 ≤ hardFailCount (preList cfg fields pathway state))
    (hok : runAllChecks cfg today fields form_type entity_type pathway state =
      Except.ok l) :
    (∃ c ∈ l, c.check_name = str "completeness.compound_failure" ∧
      c.passed = false ∧ c.severity = CheckSeverity.HARD_FAIL)
    ∧ ∀ c ∈ preList cfg fields pathway state, c ∈ l := by
  rcases hexp : checkExpiration cfg today fields state form_type with e | expiration
  · rw [runAllChecks, hexp] at hok
    exact absurd hok (by simp)
  · rw [runAllChecks, hexp] at hok
    have hl := (Except.ok.inj hok).symm
    subst hl
    have hcomp : checkCompoundFailure (preList cfg fields pathway state) =
        some { check_name := str "completeness.compound_failure", passed := false,
               severity := .HARD_FAIL,
               message := str "Compound failure: " ++
                 natDigits (hardFailCount (preList cfg fields pathway state)) ++
                 str " HARD_FAIL checks triggered.",
               recommendation := some (str "Request corrected certificate; multiple independent defects present.") } := by
      rw [checkCompoundFailure, if_pos h3]
    constructor
    · refine ⟨_, List.mem_filterMap.mpr
        ⟨checkCompoundFailure (preList cfg fields pathway state), by simp, hcomp⟩,
        rfl, rfl, rfl⟩
    · intro c hc
      rw [List.mem_filterMap]
      rw [preList, List.mem_filterMap] at hc
      obtain ⟨o, ho, hoc⟩ := hc
      exact ⟨o, by simp [ho], hoc⟩

/-- C2 (witness): a certificate with no purchaser name and no resolvable
state accumulates three completeness HARD_FAILs, so the run emits the
compound-failure check. -/
theorem run_all_checks_compound_failure_witness :
    (∃ c ∈ okList (runAllChecks cfgEmpty todayFix { purchaser_name := none }
        FormType.UNKNOWN EntityType.UNKNOWN ValidationPathway.FEDERAL_EXEMPTION []),
      c.check_name = str "completeness.compound_failure" ∧
      c.passed = false ∧ c.severity = CheckSeverity.HARD_FAIL) := by
  refine (run_all_checks_compound_failure cfgEmpty todayFix
    { purchaser_name := none } FormType.UNKNOWN EntityType.UNKNOWN
    ValidationPathway.FEDERAL_EXEMPTION [] _ (by decide) ?_).1
  with_unfolding_all decide

/-- Configuration with Alabama's annual expiration rule (the rule kind the
test suite exercises for AL). -/
def cfgAnnualAL : Config :=
  { expiration_rules := [(str "AL", { rule := some (str "annual") })] }

/-- A certificate dated in year 9999 (a legal Python `date`). -/
def fieldsYear9999 : ExtractedFields :=
  { purchaser_name := some (str "City of Mobile"),
    cert_date := some ⟨9999, 3, 1⟩ }

/-- C4: `run_all_checks` is not total.  Under an annual expiration rule, a
certificate dated in year 9999 drives `cert_date.replace(year=10000)` past
the `datetime` year range; the `except ValueError` handler retries with
`replace(month=2, day=28, year=10000)`, which raises the same `ValueError`,
and the exception escapes `run_all_checks`. -/
theorem run_all_checks_raises_on_year_overflow :
    runAllChecks cfgAnnualAL todayFix fieldsYear9999 FormType.AL_STE_1
        EntityType.LOCAL_GOVERNMENT ValidationPathway.STANDARD_SELF_COMPLETED
        (str "AL") =
      Except.error "ValueError: year out of range" := by
  decide

/-- C7: under a `fixed_years` or `annual` expiration rule, a February 29
execution date rolled forward to a year with no February 29 (and inside the
`datetime` year range) is clamped to February 28 of the target year, and
that clamped date is the one handed to the expired / within-90-days / valid
window comparison. -/
theorem check_expiration_leap_day_clamp (cfg : Config) (today : PyDate)
    (fields : ExtractedFields) (state : Str) (form_type : FormType)
    (rcfg : ExpStateRule) (src : Str) (y years : Nat)
    (hres : resolveExpirationRule cfg (normStateOrDefault state) form_type =
      (rcfg, src))
    (hkind : rcfg.rule.getD (str "never") = str "fixed_years" ∨
      rcfg.rule.getD (str "never") = str "annual")
    (hyears : years =
      (if rcfg.rule.getD (str "never") = str "annual" then 1 else rcfg.years.getD 0))
    (hdate : fields.cert_date = some ⟨y, 2, 29⟩)
    (hnoleap : isLeap (y + years) = false)
    (hy1 : 1 ≤ y + years) (hy2 : y + years ≤ 9999) :
    checkExpiration cfg today fields state form_type =
      Except.ok (dateWindowResult today (str "expiration.state_rule")
        ⟨y + years, 2, 28⟩ (normStateOrDefault state) rcfg.citation) := by
  have hmk1 : mkDate (y + years) 2 29 = none := by
    simp [mkDate, validDate, monthLen, hnoleap]
  have hmk2 : mkDate (y + years) 2 28 = some ⟨y + years, 2, 28⟩ := by
    simp [mkDate, validDate, monthLen, hnoleap, hy1, hy2]
  rcases hkind with hk | hk
  · rw [hk, if_neg (show ¬ (str "fixed_years" = str "annual") by decide)] at hyears
    simp only [checkExpiration, hres, hdate, hk, true_or, if_true]
    rw [if_neg (show ¬ (str "fixed_years" = str "never") by decide)]
    rw [if_neg (show ¬ (str "fixed_years" = str "annual") by decide)]
    rw [← hyears]
    simp only [hmk1, hmk2]
  · rw [hk, if_pos (show str "annual" = str "annual" from rfl)] at hyears
    rw [hyears] at hmk1 hmk2
    simp only [checkExpiration, hres, hdate, hk, or_true, if_true]
    rw [if_neg (show ¬ (str "annual" = str "never") by decide)]
    simp only [hmk1, hmk2]
    rw [hyears]

/-- A certificate executed on a leap day. -/
def fieldsLeapDay : ExtractedFields := { cert_date := some ⟨2024, 2, 29⟩ }

/-- C7 (witness): an AL annual-rule certificate executed 2024-02-29 is
compared against the clamped expiration 2025-02-28. -/
theorem check_expiration_leap_day_clamp_witness :
    checkExpiration cfgAnnualAL todayFix fieldsLeapDay (str "AL")
        FormType.AL_STE_1 =
      Except.ok (dateWindowResult todayFix (str "expiration.state_rule")
        ⟨2025, 2, 28⟩ (normStateOrDefault (str "AL"))
        ({ rule := some (str "annual") } : ExpStateRule).citation) :=
  check_expiration_leap_day_clamp cfgAnnualAL todayFix fieldsLeapDay (str "AL")
    FormType.AL_STE_1 { rule := some (str "annual") } (str "AL") 2024 1
    (by decide) (by decide) (by decide) (by decide) (by decide) (by decide)
    (by decide)

/-- The fingerprint as the spec/claim words it: entries with no certificate
date use name + jurisdiction + form type; entries with a certificate date
use name + jurisdiction + exemption category + certificate date.  (Clearly
named spec-side definition, for comparison with `fingerprint`.) -/
def claimFingerprint (r : DupRec) : Str :=
  let customer := normalizeName r.customer_name
  let state := upperStr (stripStr (r.state.getD []))
  let exemption_category := lowerStr (stripStr (r.exemption_category.getD []))
  let form_type := stripStr (r.form_type.getD [])
  match orStr r.cert_date [] with
  | [] => customer ++ str "|" ++ state ++ str "|" ++ form_type
  | d => customer ++ str "|" ++ state ++ str "|" ++ exemption_category ++
      str "|" ++ d

/-- A dateless batch row carrying only an expiration date. -/
def dupNoCertDateA : DupRec :=
  { customer_name := some (str "Acme Supply"), state := some (str "TX"),
    exemption_category := some (str "resale"),
    expiration_date := some (str "2024-01-01"),
    form_type := some (str "MTC Uniform Certificate"),
    cert_id := some (str "cert-1") }

/-- The same row with a different expiration date. -/
def dupNoCertDateB : DupRec :=
  { customer_name := some (str "Acme Supply"), state := some (str "TX"),
    exemption_category := some (str "resale"),
    expiration_date := some (str "2025-01-01"),
    form_type := some (str "MTC Uniform Certificate"),
    cert_id := some (str "cert-2") }

/-- C5 (counterexample): two entries with no certificate date whose
claim-side fingerprints (name + jurisdiction + form type) coincide are
nevertheless not grouped as duplicates by `find_duplicates`, because the
code falls back to the expiration date as the date component of the
fingerprint. -/
theorem find_duplicates_fingerprint_counterexample :
    dupNoCertDateA.cert_date = none ∧ dupNoCertDateB.cert_date = none ∧
    claimFingerprint dupNoCertDateA = claimFingerprint dupNoCertDateB ∧
    fingerprint dupNoCertDateA ≠ fingerprint dupNoCertDateB ∧
    findDuplicates [dupNoCertDateA, dupNoCertDateB] = [] := by
  decide

/-- `str` applied to literal spaces, as explicit lists. -/
theorem str_space : str " " = [' '] := rfl

/-- `str` applied to a double space, as an explicit list. -/
theorem str_dblspace : str "  " = [' ', ' '] := rfl

/-- Characters emitted by whitespace collapsing are non-space input
characters or single spaces. -/
theorem collapseWsAux_mem (s : Str) (b : Bool) :
    ∀ c ∈ collapseWsAux b s, (c ∈ s ∧ isSpaceChar c = false) ∨ c = ' ' := by
  induction s generalizing b with
  | nil => simp [collapseWsAux]
  | cons a as ih =>
    intro c hc
    by_cases ha : isSpaceChar a
    · cases b with
      | true =>
        simp only [collapseWsAux, ha, if_true] at hc
        rcases ih true c hc with ⟨hm, hs⟩ | hsp
        · exact Or.inl ⟨List.mem_cons_of_mem a hm, hs⟩
        · exact Or.inr hsp
      | false =>
        simp only [collapseWsAux, ha, if_true] at hc
        rcases List.mem_cons.mp hc with rfl | hc
        · exact Or.inr rfl
        · rcases ih true c hc with ⟨hm, hs⟩ | hsp
          · exact Or.inl ⟨List.mem_cons_of_mem a hm, hs⟩
          · exact Or.inr hsp
    · simp only [collapseWsAux, ha, if_false] at hc
      rcases List.mem_cons.mp hc with rfl | hc
      · exact Or.inl ⟨List.mem_cons_self _ _, by simpa using ha⟩
      · rcases ih false c hc with ⟨hm, hs⟩ | hsp
        · exact Or.inl ⟨List.mem_cons_of_mem a hm, hs⟩
        · exact Or.inr hsp

/-- With the previous-was-space flag set, collapsing never emits a leading
space. -/
theorem collapseWsAux_true_head (s : Str) :
    ∀ c t, collapseWsAux true s = c :: t → isSpaceChar c = false := by
  induction s with
  | nil => intro c t h; exact absurd h (by simp [collapseWsAux])
  | cons a as ih =>
    intro c t h
    by_cases ha : isSpaceChar a
    · simp only [collapseWsAux, ha, if_true] at h
      exact ih c t h
    · simp only [collapseWsAux, ha, if_false] at h
      obtain ⟨rfl, -⟩ := List.cons.inj h
      simpa using ha

/-- Collapsed text never contains two adjacent spaces. -/
theorem collapseWsAux_no_dbl (s : Str) (b : Bool) :
    ¬ (str "  " <:+: collapseWsAux b s) := by
  induction s generalizing b with
  | nil => simp [collapseWsAux, str]
  | cons a as ih =>
    intro hinf
    rw [str_dblspace] at hinf
    by_cases ha : isSpaceChar a
    · cases b with
      | true =>
        simp only [collapseWsAux, ha, if_true] at hinf
        exact ih true (by rw [str_dblspace]; exact hinf)
      | false =>
        simp only [collapseWsAux, ha, if_true] at hinf
        rcases List.infix_cons_iff.mp hinf with hpre | hinf2
        · have h2 : [' '] <+: collapseWsAux true as :=
            (List.cons_prefix_cons.mp hpre).2
          rcases hk : collapseWsAux true as with - | ⟨c, t⟩
          · rw [hk] at h2
            exact absurd (List.prefix_nil.mp h2) (by simp)
          · rw [hk] at h2
            have hc : c = ' ' := ((List.cons_prefix_cons.mp h2).1).symm
            have hhd := collapseWsAux_true_head as c t hk
            rw [hc] at hhd
            simp [isSpaceChar] at hhd
        · exact ih true (by rw [str_dblspace]; exact hinf2)
    · simp only [collapseWsAux, ha, if_false] at hinf
      rcases List.infix_cons_iff.mp hinf with hpre | hinf2
      · have hc : a = ' ' := ((List.cons_prefix_cons.mp hpre).1).symm
        rw [hc] at ha
        simp [isSpaceChar] at ha
      · exact ih false (by rw [str_dblspace]; exact hinf2)

/-- The head surviving `dropWhile isSpaceChar` is not a space. -/
theorem dropWhile_head_space (l : Str) :
    ∀ c t, l.dropWhile isSpaceChar = c :: t → isSpaceChar c = false := by
  induction l with
  | nil => intro c t h; exact absurd h (by simp)
  | cons a as ih =>
    intro c t h
    by_cases ha : isSpaceChar a
    · rw [List.dropWhile_cons_of_pos ha] at h
      exact ih c t h
    · rw [List.dropWhile_cons_of_neg ha] at h
      obtain ⟨rfl, -⟩ := List.cons.inj h
      simpa using ha

/-- A single space is never a prefix of a front-stripped list. -/
theorem not_space_prefix_dropWhile (l : Str) :
    ¬ (str " " <+: l.dropWhile isSpaceChar) := by
  intro h
  rw [str_space] at h
  rcases hk : l.dropWhile isSpaceChar with - | ⟨c, t⟩
  · rw [hk] at h
    exact absurd (List.prefix_nil.mp h) (by simp)
  · rw [hk] at h
    have hc : c = ' ' := ((List.cons_prefix_cons.mp h).1).symm
    have hhd := dropWhile_head_space l c t hk
    rw [hc] at hhd
    simp [isSpaceChar] at hhd

/-- Stripping removes only a suffix of the front-stripped list. -/
theorem stripStr_prefix_dropWhile (s : Str) :
    stripStr s <+: s.dropWhile isSpaceChar := by
  rw [stripStr, ← List.reverse_suffix, List.reverse_reverse]
  exact List.dropWhile_suffix _

/-- A stripped list is an infix of the original. -/
theorem stripStr_isInf (s : Str) : stripStr s <:+: s :=
  List.IsInfix.trans ( List.IsPrefix.isInfix (stripStr_prefix_dropWhile s))
    ( List.IsSuffix.isInfix (List.dropWhile_suffix _))

/-- Every character of a normalized name is a lowercase letter, a digit,
or a single space. -/
theorem normalizeName_chars (v : Option Str) :
    ∀ c ∈ normalizeName v, c.isLower = true ∨ c.isDigit = true ∨ c = ' ' := by
  rcases v with - | v
  · simp [normalizeName]
  · by_cases hv : v = []
    · simp [normalizeName, hv]
    · intro c hc
      rw [normalizeName] at hc
      simp only [hv, if_false] at hc
      have hc2 := (stripStr_isInf _).subset hc
      rcases collapseWsAux_mem _ false c hc2 with ⟨hm, hs⟩ | hsp
      · have hpred := (List.mem_filter.mp hm).2
        rcases Bool.or_eq_true_iff.mp hpred with h | h
        · rcases Bool.or_eq_true_iff.mp h with h | h
          · exact Or.inl h
          · exact Or.inr (Or.inl h)
        · rw [h] at hs
          exact absurd hs (by simp)
      · exact Or.inr (Or.inr hsp)

/-- A normalized name never contains a double space. -/
theorem normalizeName_no_double_space (v : Option Str) :
    ¬ (str "  " <:+: normalizeName v) := by
  rcases v with - | v
  · simp [normalizeName, str]
  · by_cases hv : v = []
    · simp [normalizeName, hv, str]
    · rw [normalizeName]
      simp only [hv, if_false]
      intro h
      exact collapseWsAux_no_dbl _ false (h.trans (stripStr_isInf _))

/-- A normalized name never starts with a space. -/
theorem normalizeName_no_leading_space (v : Option Str) :
    ¬ (str " " <+: normalizeName v) := by
  rcases v with - | v
  · simp [normalizeName, str]
  · by_cases hv : v = []
    · simp [normalizeName, hv, str]
    · rw [normalizeName]
      simp only [hv, if_false]
      intro h
      exact not_space_prefix_dropWhile _ (h.trans (stripStr_prefix_dropWhile _))

/-- A normalized name never ends with a space. -/
theorem normalizeName_no_trailing_space (v : Option Str) :
    ¬ (str " " <:+ normalizeName v) := by
  rcases v with - | v
  · simp [normalizeName, str]
  · by_cases hv : v = []
    · simp [normalizeName, hv, str]
    · rw [normalizeName]
      simp only [hv, if_false]
      intro h
      have h2 := Iff.mpr List.reverse_prefix h
      rw [stripStr, List.reverse_reverse] at h2
      rw [show (str " ").reverse = str " " from rfl] at h2
      exact not_space_prefix_dropWhile _ h2

/-- The date component actually used by `find_duplicates`: the certificate
date, falling back to the expiration date. -/
def dupDateKey (r : DupRec) : Str := orStr r.cert_date (orStr r.expiration_date [])

/-- Adding one row to the bucket map appends it to exactly the bucket of
its key. -/
theorem bucketOf_addToBuckets (bs : List (Str × List DupRec)) (k0 : Str)
    (r : DupRec) (k : Str) :
    bucketOf (addToBuckets bs k0 r) k =
      bucketOf bs k ++ (if k0 = k then [r] else []) := by
  induction bs with
  | nil =>
    by_cases hk : k0 = k <;> simp [addToBuckets, bucketOf, lookupA, hk]
  | cons b rest ih =>
    obtain ⟨k1, l1⟩ := b
    by_cases h10 : k1 = k0
    · subst h10
      by_cases h1k : k1 = k
      · subst h1k
        simp [addToBuckets, bucketOf, lookupA]
      · simp [addToBuckets, bucketOf, lookupA, h1k]
    · by_cases h1k : k1 = k
      · subst h1k
        simp [addToBuckets, bucketOf, lookupA, h10,
          show ¬ (k0 = k1) from fun h => h10 h.symm]
      · simp only [addToBuckets, if_neg h10, bucketOf, lookupA, if_neg h1k]
        exact ih

/-- Generalized bucket characterization for the fold. -/
theorem bucketOf_foldl (batch : List DupRec) (acc : List (Str × List DupRec))
    (k : Str) :
    bucketOf (batch.foldl (fun bs r => addToBuckets bs (fingerprint r) r) acc) k =
      bucketOf acc k ++ batch.filter (fun r => decide (fingerprint r = k)) := by
  induction batch generalizing acc with
  | nil => simp
  | cons r rest ih =>
    rw [List.foldl_cons, ih, List.filter_cons]
    by_cases hk : fingerprint r = k
    · rw [bucketOf_addToBuckets, if_pos hk]
      simp [hk, List.append_assoc]
    · rw [bucketOf_addToBuckets, if_neg hk]
      simp [hk]

/-- C5 (amended): in `find_duplicates`, every batch entry with neither a
certificate date nor an expiration date is fingerprinted as normalized
customer name + jurisdiction + form type; every entry whose certificate
date — or, when that is missing, expiration date — is present is
fingerprinted as normalized name + jurisdiction + exemption category +
that date; name normalization lowercases, strips punctuation and collapses
whitespace; and entries are grouped into the same duplicate bucket exactly
when these fingerprints are equal. -/
theorem find_duplicates_fingerprint_grouping :
    (∀ r : DupRec, dupDateKey r = [] →
      fingerprint r = normalizeName r.customer_name ++ str "|" ++
        upperStr (stripStr (r.state.getD [])) ++ str "|" ++
        stripStr (r.form_type.getD []))
    ∧ (∀ r : DupRec, dupDateKey r ≠ [] →
      fingerprint r = normalizeName r.customer_name ++ str "|" ++
        upperStr (stripStr (r.state.getD [])) ++ str "|" ++
        lowerStr (stripStr (r.exemption_category.getD [])) ++ str "|" ++
        dupDateKey r)
    ∧ (∀ v : Option Str,
        (∀ c ∈ normalizeName v, c.isLower = true ∨ c.isDigit = true ∨ c = ' ')
        ∧ ¬ (str "  " <:+: normalizeName v)
        ∧ ¬ (str " " <+: normalizeName v)
        ∧ ¬ (str " " <:+ normalizeName v))
    ∧ (∀ (batch : List DupRec) (k : Str),
        bucketOf (buildBuckets batch) k =
          batch.filter (fun r => decide (fingerprint r = k))) := by
  refine ⟨?_, ?_, ?_, ?_⟩
  · intro r h
    rw [fingerprint]
    rw [dupDateKey] at h
    simp [h]
  · intro r h
    rw [fingerprint]
    rw [dupDateKey] at h
    simp [dupDateKey, h]
  · intro v
    exact ⟨normalizeName_chars v, normalizeName_no_double_space v,
      normalizeName_no_leading_space v, normalizeName_no_trailing_space v⟩
  · intro batch k
    rw [buildBuckets, bucketOf_foldl]
    simp [bucketOf, lookupA]

/-- A batch row with no date fields at all. -/
def dupPlainRow : DupRec :=
  { customer_name := some (str "Acme Supply"), state := some (str "TX"),
    form_type := some (str "MTC Uniform Certificate"),
    cert_id := some (str "cert-3") }

/-- C5 (witness): a dateless row is fingerprinted by name, jurisdiction and
form type. -/
theorem find_duplicates_fingerprint_grouping_witness :
    fingerprint dupPlainRow = normalizeName dupPlainRow.customer_name ++
      str "|" ++ upperStr (stripStr (dupPlainRow.state.getD [])) ++ str "|" ++
      stripStr (dupPlainRow.form_type.getD []) :=
  find_duplicates_fingerprint_grouping.1 dupPlainRow (by decide)

/-- Rounding to three decimals preserves the 0.45 bound. -/
theorem round3_le_cap (q : ℚ) (h : q ≤ 45 / 100) : round3 q ≤ 45 / 100 := by
  rw [round3]
  have h2 : round (q * 1000) ≤ round ((450 : ℚ)) := by
    rw [round_eq, round_eq]
    exact Int.floor_le_floor (by linarith)
  have h3 : round ((450 : ℚ)) = 450 := by norm_num
  rw [h3] at h2
  have h4 : ((round (q * 1000) : ℤ) : ℚ) ≤ 450 := by exact_mod_cast h2
  linarith

/-- C6: when `identify_form_type` resolves through the general
catalog-scoring path (no strong-signal rule fired) and the winning entry
matched only a single identifier which is generic (it contains the phrase
"exemption certificate"), the returned confidence is at most 0.45. -/
theorem identify_form_type_generic_cap (cfg : Config) (raw_text : Str)
    (form : FormType) (conf : ℚ) (ident : Str)
    (hne : raw_text ≠ [])
    (hstrong : strongSignal (lowerStr raw_text) = none)
    (hres : identifyFormType cfg raw_text = (form, conf))
    (hform : form ≠ FormType.UNKNOWN)
    (hcount : (cfg.forms.foldl (scoreStep (lowerStr raw_text))
      (FormType.UNKNOWN, 0, 1)).2.1 = 1)
    (hmatch : lowerStr ident <:+: lowerStr raw_text)
    (hgen : str "exemption certificate" <:+: lowerStr ident) :
    conf ≤ 45 / 100 := by
  have htext : str "exemption certificate" <:+: lowerStr raw_text :=
    hgen.trans hmatch
  rw [identifyFormType, if_neg hne] at hres
  simp only [hstrong] at hres
  by_cases hU : (cfg.forms.foldl (scoreStep (lowerStr raw_text))
      (FormType.UNKNOWN, 0, 1)).1 = FormType.UNKNOWN
  · rw [if_pos hU] at hres
    exact absurd ((Prod.mk.injEq _ _ _ _).mp hres).1.symm hform
  · rw [if_neg hU] at hres
    have hcond : ((cfg.forms.foldl (scoreStep (lowerStr raw_text))
        (FormType.UNKNOWN, 0, 1)).2.1 = 1 ∧
        str "exemption certificate" <:+: lowerStr raw_text) := ⟨hcount, htext⟩
    rw [if_pos hcond] at hres
    have hconf := ((Prod.mk.injEq _ _ _ _).mp hres).2.symm
    rw [hconf]
    exact round3_le_cap _ (min_le_right _ _)

/-- A one-entry catalog whose only matching identifier is generic. -/
def cfgGenericForm : Config :=
  { forms := [(str "MTC_UNIFORM",
      { identifiers := [str "exemption certificate", str "uniform sales"] })] }

/-- C6 (witness): on the text "blanket exemption certificate" with a catalog
entry matching only its generic identifier, the cap applies. -/
theorem identify_form_type_generic_cap_witness : (45 : ℚ) / 100 ≤ 45 / 100 :=
  identify_form_type_generic_cap cfgGenericForm
    (str "blanket exemption certificate") FormType.MTC_UNIFORM (45 / 100)
    (str "exemption certificate") (by decide) (by decide)
    (by with_unfolding_all decide) (by decide) (by decide) (by decide)
    (by decide)

set_option maxHeartbeats 1600000 in
/-- C9: `classify_entity` returns TRIBAL only when a dedicated tribal
indicator other than "Nation" occurs in the purchaser name + raw text, or
both "nation" and "tribal" occur; in particular an input containing
"Nation" with no dedicated tribal phrase and no "tribal" is never
classified TRIBAL. -/
theorem classify_entity_tribal_guard (fields : ExtractedFields) :
    (classifyEntity fields = EntityType.TRIBAL →
      (containsAny (classifySource fields)
          (TRIBAL_INDICATORS.filter (fun i => i ≠ str "Nation")) = true ∨
        ((str "nation" <:+: lowerStr (classifySource fields)) ∧
          (str "tribal" <:+: lowerStr (classifySource fields)))))
    ∧ ((str "nation" <:+: lowerStr (classifySource fields)) →
       containsAny (classifySource fields)
          (TRIBAL_INDICATORS.filter (fun i => i ≠ str "Nation")) = false →
       ¬ (str "tribal" <:+: lowerStr (classifySource fields)) →
       classifyEntity fields ≠ EntityType.TRIBAL) := by
  have part1 : classifyEntity fields = EntityType.TRIBAL →
      (containsAny (classifySource fields)
          (TRIBAL_INDICATORS.filter (fun i => i ≠ str "Nation")) = true ∨
        ((str "nation" <:+: lowerStr (classifySource fields)) ∧
          (str "tribal" <:+: lowerStr (classifySource fields)))) := by
    rw [classifyEntity]
    split_ifs <;> simp_all
  refine ⟨part1, ?_⟩
  intro _hnation hded htribal hcls
  rcases part1 hcls with hd | ⟨-, ht⟩
  · rw [hded] at hd
    exact Bool.false_ne_true hd
  · exact htribal ht

/-- A purchaser whose name names a pueblo. -/
def fieldsPueblo : ExtractedFields :=
  { purchaser_name := some (str "Acoma Pueblo"), raw_text := some [] }

/-- C9 (witness): "Acoma Pueblo" is classified TRIBAL, and the guard shows
a dedicated tribal phrase or the nation+tribal co-occurrence was present. -/
theorem classify_entity_tribal_guard_witness :
    containsAny (classifySource fieldsPueblo)
        (TRIBAL_INDICATORS.filter (fun i => i ≠ str "Nation")) = true ∨
      ((str "nation" <:+: lowerStr (classifySource fieldsPueblo)) ∧
        (str "tribal" <:+: lowerStr (classifySource fieldsPueblo))) :=
  (classify_entity_tribal_guard fieldsPueblo).1 (by decide)

/-- C10: on the STANDARD_SELF_COMPLETED and MULTI_STATE_UNIFORM pathways,
a seller name that is non-empty after trimming, matches no configured
accepted variant, contains neither "fleetio" nor "rarestep", and is not a
generic placeholder yields a failed HARD_FAIL `completeness.seller_name`
result, and any check list containing that result is dispositioned
NEEDS_CORRECTION. -/
theorem check_seller_name_unrecognized (cfg : Config)
    (fields : ExtractedFields) (pathway : ValidationPathway)
    (hpath : pathway = ValidationPathway.STANDARD_SELF_COMPLETED ∨
      pathway = ValidationPathway.MULTI_STATE_UNIFORM)
    (hne : stripStr (fields.seller_name.getD []) ≠ [])
    (hacc : lowerStr (stripStr (fields.seller_name.getD [])) ∉
      (cfg.seller_name_variants.exact_matches ++
        cfg.seller_name_variants.acceptable_variants).map lowerStr)
    (hfl : ¬ (str "fleetio" <:+: lowerStr (stripStr (fields.seller_name.getD []))))
    (hrs : ¬ (str "rarestep" <:+: lowerStr (stripStr (fields.seller_name.getD []))))
    (hgen : lowerStr (stripStr (fields.seller_name.getD [])) ∉
      [str "seller", str "vendor", str "vendor name", str "seller name"]) :
    ∃ r : CheckResult, checkSellerName cfg fields pathway = some r ∧
      r.passed = false ∧ r.severity = CheckSeverity.HARD_FAIL ∧
      r.check_name = str "completeness.seller_name" ∧
      ∀ (checks : List CheckResult) (f : ExtractedFields) (ft : FormType)
        (et : EntityType), r ∈ checks →
        (determineDisposition checks f ft et).1 = Disposition.NEEDS_CORRECTION := by
  have hself : isSelfCompleted pathway = true := by
    rcases hpath with h | h <;> simp [isSelfCompleted, h]
  rw [checkSellerName]
  rw [hself]
  simp only [Bool.not_true, Bool.false_eq_true, if_false]
  rw [if_neg hne, if_neg (by simpa using hacc),
    if_neg (by simp [hfl, hrs]), if_neg (by simpa using hgen)]
  refine ⟨_, rfl, rfl, rfl, rfl, ?_⟩
  intro checks f ft et hmem
  rw [determineDisposition_fst]
  rw [if_pos ((failedWith_ne_nil _ _).mpr ⟨_, hmem, rfl, rfl⟩)]

/-- Config accepting only one seller-name variant. -/
def cfgSellerVariants : Config :=
  { seller_name_variants := { exact_matches := [str "Fleetio, Inc."] } }

/-- A certificate naming an unrecognized seller. -/
def fieldsGlobexSeller : ExtractedFields :=
  { seller_name := some (str "Globex LLC") }

/-- C10 (witness): an unrecognized seller name on the standard pathway
produces the failed HARD_FAIL seller check, which alone forces
NEEDS_CORRECTION. -/
theorem check_seller_name_unrecognized_witness :
    ∃ r : CheckResult, checkSellerName cfgSellerVariants fieldsGlobexSeller
        ValidationPathway.STANDARD_SELF_COMPLETED = some r ∧
      r.passed = false ∧ r.severity = CheckSeverity.HARD_FAIL ∧
      r.check_name = str "completeness.seller_name" ∧
      ∀ (checks : List CheckResult) (f : ExtractedFields) (ft : FormType)
        (et : EntityType), r ∈ checks →
        (determineDisposition checks f ft et).1 = Disposition.NEEDS_CORRECTION :=
  check_seller_name_unrecognized cfgSellerVariants fieldsGlobexSeller
    ValidationPathway.STANDARD_SELF_COMPLETED (Or.inl rfl) (by decide)
    (by decide) (by decide) (by decide) (by decide)

/-- The tier label appearing in a resale-tier check message. -/
def tierLabel : ResaleTier → Str
  | .STRONG => str "STRONG"
  | .PLAUSIBLE => str "PLAUSIBLE"
  | .WEAK => str "WEAK"
  | .IMPLAUSIBLE => str "IMPLAUSIBLE"

/-- Splitting a list at a character that occurs in neither part is unique. -/
theorem eq_split_unique (c : Char) :
    ∀ (P P2 S S2 : Str), c ∉ P → c ∉ P2 →
      P ++ c :: S = P2 ++ c :: S2 → P = P2 ∧ S = S2 := by
  intro P
  induction P with
  | nil =>
    intro P2 S S2 hP hP2 h
    cases P2 with
    | nil => simpa using h
    | cons b u =>
      obtain ⟨hcb, -⟩ := List.cons.inj (by simpa using h)
      rw [hcb] at hP2
      simp at hP2
  | cons a t ih =>
    intro P2 S S2 hP hP2 h
    cases P2 with
    | nil =>
      obtain ⟨hac, -⟩ := List.cons.inj (by simpa using h)
      rw [← hac] at hP
      simp at hP
    | cons b u =>
      obtain ⟨hab, h2⟩ := List.cons.inj (by simpa using h)
      obtain ⟨ht, hS⟩ := ih u S S2 (by simp at hP; exact hP.2)
        (by simp at hP2; exact hP2.2) (by simpa using h2)
      exact ⟨by rw [hab, ht], hS⟩

/-- If a marker containing one `'='` occurs in a string containing exactly
one `'='`, the marker tail is a prefix of the string tail after that `'='`. -/
theorem single_eq_marker_split {Q T P S m L : Str}
    (hm : m = Q ++ '=' :: T) (hL : L = P ++ '=' :: S)
    (_hQ : '=' ∉ Q) (hT : '=' ∉ T) (hP : '=' ∉ P) (hS : '=' ∉ S)
    (hinf : m <:+: L) : T <+: S := by
  obtain ⟨U, V, hUV⟩ := hinf
  rw [hm, hL] at hUV
  have hUV2 : (U ++ Q) ++ '=' :: (T ++ V) = P ++ '=' :: S := by
    rw [← hUV]
    simp [List.append_assoc]
  have hcnt := congrArg (List.count '=') hUV2
  simp only [List.count_append, List.count_cons_self] at hcnt
  rw [List.count_eq_zero.mpr hP, List.count_eq_zero.mpr hS,
    List.count_eq_zero.mpr hT] at hcnt
  have hUQ : '=' ∉ U ++ Q := by
    rw [← List.count_eq_zero, List.count_append]
    omega
  have hTV : T ++ V = S := by
    have hcV : List.count '=' V = 0 := by omega
    have := eq_split_unique '=' (U ++ Q) P (T ++ V) S hUQ hP hUV2
    exact this.2
  rw [← hTV]
  exact List.prefix_append T V

/-- The marker for a tier label occurs in its own (uppercased) message. -/
theorem marker_self (lab rest2 : Str) :
    (str "TIER=" ++ lab) <:+: (str "RESALE TIER=" ++ (lab ++ rest2)) := by
  refine ⟨str "RESALE ", rest2, ?_⟩
  rw [show str "RESALE TIER=" = str "RESALE " ++ str "TIER=" by decide]
  simp [List.append_assoc]

/-- A marker whose label starts with a different character than the
message label never occurs in that message. -/
theorem marker_elsewhere_absent {c c2 : Char} (T2 S2 : Str)
    (hT2 : '=' ∉ (c :: T2)) (hS : '=' ∉ (c2 :: S2)) (hne : c ≠ c2) :
    ¬ ((str "TIER=" ++ (c :: T2)) <:+: (str "RESALE TIER=" ++ (c2 :: S2))) := by
  intro h
  have hpre : (c :: T2) <+: (c2 :: S2) := by
    refine single_eq_marker_split (Q := str "TIER") (P := str "RESALE TIER")
      ?_ ?_ (by decide) ?_ (by decide) hS h
    · rw [show str "TIER=" = str "TIER" ++ ['='] by decide]
      simp
    · rw [show str "RESALE TIER=" = str "RESALE TIER" ++ ['='] by decide]
      simp
    · simpa using hT2
  exact hne (List.cons_prefix_cons.mp hpre).1

/-- Uppercasing a hit message splits it into marker prefix, label, pattern
and fixed text (right-associated). -/
theorem upper_hitMsg_assoc (lab p out : Str) :
    upperStr (hitMsg lab p out) =
    str "RESALE TIER=" ++ (upperStr lab ++ (str " BASED ON PATTERN '" ++
      (upperStr p ++ (str "' IN PURCHASER PROFILE; CLAIM " ++
      (upperStr out ++ str "."))))) := by
  simp only [hitMsg, upperStr, List.map_append, List.append_assoc]
  rw [show List.map Char.toUpper (str "Resale tier=") = str "RESALE TIER="
      by decide,
    show List.map Char.toUpper (str " based on pattern '") =
      str " BASED ON PATTERN '" by decide,
    show List.map Char.toUpper (str "' in purchaser profile; claim ") =
      str "' IN PURCHASER PROFILE; CLAIM " by decide,
    show List.map Char.toUpper (str ".") = str "." by decide]

/-- A matched pattern belongs to the configured pattern list. -/
theorem firstPattern_mem (text : Str) :
    ∀ (ps : List Str) (p : Str), firstPattern text ps = some p → p ∈ ps := by
  intro ps
  induction ps with
  | nil => intro p h; exact absurd h (by simp [firstPattern])
  | cons q qs ih =>
    intro p h
    rw [firstPattern] at h
    split at h
    · exact (Option.some.inj h) ▸ List.mem_cons_self _ _
    · exact List.mem_cons_of_mem _ (ih p h)

/-- A successful assoc-lookup returns a member of the list. -/
theorem lookupA_mem {β : Type} (k : Str) :
    ∀ (l : List (Str × β)) (v : β), lookupA k l = some v → (k, v) ∈ l := by
  intro l
  induction l with
  | nil => intro v h; exact absurd h (by simp [lookupA])
  | cons kv rest ih =>
    intro v h
    obtain ⟨k0, v0⟩ := kv
    rw [lookupA] at h
    split at h
    · rename_i heq
      obtain rfl := Option.some.inj h
      rw [heq]
      exact List.mem_cons_self _ _
    · exact List.mem_cons_of_mem _ (ih v h)

/-- A run of `_find_resale_tier` skips entries with other check names. -/
theorem findResaleTier_skip (pre rest : List CheckResult)
    (h : ∀ c ∈ pre, c.check_name ≠ str "reasonableness.resale_tier") :
    findResaleTier (pre ++ rest) = findResaleTier rest := by
  induction pre with
  | nil => rfl
  | cons c cs ih =>
    rw [List.cons_append, findResaleTier,
      if_pos (h c (List.mem_cons_self _ _))]
    exact ih (fun c2 hc2 => h c2 (List.mem_cons_of_mem _ hc2))

/-- The marker of a hit message's own tier occurs in the uppercased text. -/
theorem hit_marker_pos (t : ResaleTier) (p out : Str) :
    (str "TIER=" ++ tierLabel t) <:+: upperStr (hitMsg (tierLabel t) p out) := by
  rw [upper_hitMsg_assoc]
  cases t <;>
    first
    | exact marker_self (str "STRONG") _
    | exact marker_self (str "PLAUSIBLE") _
    | exact marker_self (str "WEAK") _
    | exact marker_self (str "IMPLAUSIBLE") _

/-- No other tier's marker occurs in the uppercased hit message, provided
the interpolated pattern and outcome texts contain no equals sign. -/
theorem hit_marker_neg (t t2 : ResaleTier) (hne : t2 ≠ t) (p out : Str)
    (hp : '=' ∉ upperStr p) (hout : '=' ∉ upperStr out) :
    ¬ ((str "TIER=" ++ tierLabel t2) <:+: upperStr (hitMsg (tierLabel t) p out)) := by
  have hS : ∀ labU : Str, '=' ∉ labU →
      '=' ∉ (labU ++ (str " BASED ON PATTERN '" ++ (upperStr p ++
        (str "' IN PURCHASER PROFILE; CLAIM " ++ (upperStr out ++ str "."))))) := by
    intro labU hl hmem
    simp only [List.mem_append] at hmem
    rcases hmem with h | h | h | h | h | h
    · exact hl h
    · exact absurd h (by decide)
    · exact hp h
    · exact absurd h (by decide)
    · exact hout h
    · exact absurd h (by decide)
  rw [upper_hitMsg_assoc]
  cases t <;> cases t2 <;>
    first
    | exact absurd rfl hne
    | exact marker_elsewhere_absent _ _ (by decide)
        (hS (upperStr (tierLabel ResaleTier.STRONG)) (by decide)) (by decide)
    | exact marker_elsewhere_absent _ _ (by decide)
        (hS (upperStr (tierLabel ResaleTier.PLAUSIBLE)) (by decide)) (by decide)
    | exact marker_elsewhere_absent _ _ (by decide)
        (hS (upperStr (tierLabel ResaleTier.WEAK)) (by decide)) (by decide)
    | exact marker_elsewhere_absent _ _ (by decide)
        (hS (upperStr (tierLabel ResaleTier.IMPLAUSIBLE)) (by decide)) (by decide)

/-- `_find_resale_tier` on a list headed by a resale-tier result whose
message carries exactly one tier marker returns that tier. -/
theorem findResaleTier_cons (r : CheckResult) (rest : List CheckResult)
    (t : ResaleTier)
    (hname : r.check_name = str "reasonableness.resale_tier")
    (hpos : (str "TIER=" ++ tierLabel t) <:+: upperStr r.message)
    (hneg : ∀ t2, t2 ≠ t →
      ¬ ((str "TIER=" ++ tierLabel t2) <:+: upperStr r.message)) :
    findResaleTier (r :: rest) = some t := by
  rw [findResaleTier, if_neg (not_not_intro hname)]
  have hs : (str "TIER=STRONG" <:+: upperStr r.message) ↔
      ((str "TIER=" ++ tierLabel .STRONG) <:+: upperStr r.message) := by
    rw [show str "TIER=STRONG" = str "TIER=" ++ tierLabel .STRONG by decide]
  have hpl : (str "TIER=PLAUSIBLE" <:+: upperStr r.message) ↔
      ((str "TIER=" ++ tierLabel .PLAUSIBLE) <:+: upperStr r.message) := by
    rw [show str "TIER=PLAUSIBLE" = str "TIER=" ++ tierLabel .PLAUSIBLE by decide]
  have hw : (str "TIER=WEAK" <:+: upperStr r.message) ↔
      ((str "TIER=" ++ tierLabel .WEAK) <:+: upperStr r.message) := by
    rw [show str "TIER=WEAK" = str "TIER=" ++ tierLabel .WEAK by decide]
  have him : (str "TIER=IMPLAUSIBLE" <:+: upperStr r.message) ↔
      ((str "TIER=" ++ tierLabel .IMPLAUSIBLE) <:+: upperStr r.message) := by
    rw [show str "TIER=IMPLAUSIBLE" = str "TIER=" ++ tierLabel .IMPLAUSIBLE
      by decide]
  cases t with
  | STRONG => rw [if_pos (hs.mpr hpos)]
  | PLAUSIBLE =>
    rw [if_neg (fun h => hneg .STRONG (by decide) (hs.mp h)),
      if_pos (hpl.mpr hpos)]
  | WEAK =>
    rw [if_neg (fun h => hneg .STRONG (by decide) (hs.mp h)),
      if_neg (fun h => hneg .PLAUSIBLE (by decide) (hpl.mp h)),
      if_pos (hw.mpr hpos)]
  | IMPLAUSIBLE =>
    rw [if_neg (fun h => hneg .STRONG (by decide) (hs.mp h)),
      if_neg (fun h => hneg .PLAUSIBLE (by decide) (hpl.mp h)),
      if_neg (fun h => hneg .WEAK (by decide) (hw.mp h)),
      if_pos (him.mpr hpos)]

/-- Tier scan step with no matching pattern for the head tier. -/
theorem scanTiers_cons_none (tiers : List (Str × TierCfg)) (text : Str)
    (key label : Str) (passed : Bool) (sev : CheckSeverity)
    (rest : List (Str × Str × Bool × CheckSeverity))
    (h : firstPattern text ((lookupA key tiers).getD {}).patterns = none) :
    scanTiers tiers text ((key, label, passed, sev) :: rest) =
      scanTiers tiers text rest := by
  simp only [scanTiers, h]

/-- Tier scan step with a matching pattern for the head tier. -/
theorem scanTiers_cons_some (tiers : List (Str × TierCfg)) (text : Str)
    (key label : Str) (passed : Bool) (sev : CheckSeverity)
    (rest : List (Str × Str × Bool × CheckSeverity)) (p : Str)
    (h : firstPattern text ((lookupA key tiers).getD {}).patterns = some p) :
    scanTiers tiers text ((key, label, passed, sev) :: rest) =
      some (resaleTierHit label p passed sev ((lookupA key tiers).getD {})) := by
  simp only [scanTiers, h]

/-- Scanning the fixed tier ladder either misses entirely or produces a
resale-tier result carrying exactly one tier marker in its message. -/
theorem scanTiers_facts (tiers : List (Str × TierCfg)) (text : Str)
    (hfree : ∀ key p : Str,
      firstPattern text ((lookupA key tiers).getD {}).patterns = some p →
      '=' ∉ upperStr p) :
    scanTiers tiers text tierMap = none ∨
    ∃ (r : CheckResult) (t : ResaleTier),
      scanTiers tiers text tierMap = some r ∧
      r.check_name = str "reasonableness.resale_tier" ∧
      ((str "TIER=" ++ tierLabel t) <:+: upperStr r.message) ∧
      (∀ t2 : ResaleTier, t2 ≠ t →
        ¬ ((str "TIER=" ++ tierLabel t2) <:+: upperStr r.message)) := by
  rw [tierMap]
  rcases h1 : firstPattern text
      ((lookupA (str "TIER_1_STRONG") tiers).getD {}).patterns with - | p1
  case some =>
    right
    refine ⟨resaleTierHit (str "STRONG") p1 true .INFO
        ((lookupA (str "TIER_1_STRONG") tiers).getD {}), .STRONG,
      scanTiers_cons_some _ _ _ _ _ _ _ _ h1, rfl,
      hit_marker_pos .STRONG p1 (str "accepted"),
      fun t2 hne => hit_marker_neg .STRONG t2 hne p1 (str "accepted")
        (hfree _ _ h1) (by decide)⟩
  rcases h2 : firstPattern text
      ((lookupA (str "TIER_2_PLAUSIBLE") tiers).getD {}).patterns with - | p2
  case some =>
    right
    refine ⟨resaleTierHit (str "PLAUSIBLE") p2 true .INFO
        ((lookupA (str "TIER_2_PLAUSIBLE") tiers).getD {}), .PLAUSIBLE, ?_, rfl,
      hit_marker_pos .PLAUSIBLE p2 (str "accepted"),
      fun t2 hne => hit_marker_neg .PLAUSIBLE t2 hne p2 (str "accepted")
        (hfree _ _ h2) (by decide)⟩
    rw [scanTiers_cons_none _ _ _ _ _ _ _ h1]
    exact scanTiers_cons_some _ _ _ _ _ _ _ _ h2
  rcases h3 : firstPattern text
      ((lookupA (str "TIER_3_WEAK") tiers).getD {}).patterns with - | p3
  case some =>
    right
    refine ⟨resaleTierHit (str "WEAK") p3 false .REASONABLENESS
        ((lookupA (str "TIER_3_WEAK") tiers).getD {}), .WEAK, ?_, rfl,
      hit_marker_pos .WEAK p3 (str "flagged for review"),
      fun t2 hne => hit_marker_neg .WEAK t2 hne p3 (str "flagged for review")
        (hfree _ _ h3) (by decide)⟩
    rw [scanTiers_cons_none _ _ _ _ _ _ _ h1,
      scanTiers_cons_none _ _ _ _ _ _ _ h2]
    exact scanTiers_cons_some _ _ _ _ _ _ _ _ h3
  rcases h4 : firstPattern text
      ((lookupA (str "TIER_4_IMPLAUSIBLE") tiers).getD {}).patterns with - | p4
  case some =>
    right
    refine ⟨resaleTierHit (str "IMPLAUSIBLE") p4 false .REASONABLENESS
        ((lookupA (str "TIER_4_IMPLAUSIBLE") tiers).getD {}), .IMPLAUSIBLE, ?_,
      rfl, hit_marker_pos .IMPLAUSIBLE p4 (str "flagged for review"),
      fun t2 hne => hit_marker_neg .IMPLAUSIBLE t2 hne p4
        (str "flagged for review") (hfree _ _ h4) (by decide)⟩
    rw [scanTiers_cons_none _ _ _ _ _ _ _ h1,
      scanTiers_cons_none _ _ _ _ _ _ _ h2,
      scanTiers_cons_none _ _ _ _ _ _ _ h3]
    exact scanTiers_cons_some _ _ _ _ _ _ _ _ h4
  left
  rw [scanTiers_cons_none _ _ _ _ _ _ _ h1,
    scanTiers_cons_none _ _ _ _ _ _ _ h2,
    scanTiers_cons_none _ _ _ _ _ _ _ h3,
    scanTiers_cons_none _ _ _ _ _ _ _ h4]
  rfl

set_option maxRecDepth 8192 in
/-- C8: whenever `check_resale_tier` emits a result (the derived category
is resale), that result's message carries exactly one tier label marker,
and `_find_resale_tier` applied to any check list whose first
`reasonableness.resale_tier` entry is that result recovers exactly the
`ResaleTier` corresponding to that label.  Patterns are assumed not to
contain an equals sign (they are business keywords in configuration). -/
theorem check_resale_tier_round_trip (cfg : Config) (fields : ExtractedFields)
    (et : EntityType)
    (hcat : deriveExemptionCategory fields = some ExemptionCategory.RESALE)
    (hpat : ∀ kv ∈ cfg.resale_tiers,
      ∀ p ∈ (kv : Str × TierCfg).2.patterns, '=' ∉ upperStr p) :
    ∃ (r : CheckResult) (t : ResaleTier),
      checkResaleTier cfg fields et = some r ∧
      ((str "TIER=" ++ tierLabel t) <:+: upperStr r.message) ∧
      (∀ t2 : ResaleTier, t2 ≠ t →
        ¬ ((str "TIER=" ++ tierLabel t2) <:+: upperStr r.message)) ∧
      (∀ pre rest : List CheckResult,
        (∀ c ∈ pre, c.check_name ≠ str "reasonableness.resale_tier") →
        findResaleTier (pre ++ r :: rest) = some t) := by
  have hfree : ∀ key p : Str,
      firstPattern (lowerStr (joinSep (str " ")
        (([fields.business_type, fields.purchaser_name].filterMap id).filter
          (fun s => s ≠ []))))
        ((lookupA key cfg.resale_tiers).getD {}).patterns = some p →
      '=' ∉ upperStr p := by
    intro key p hp
    rcases hlk : lookupA key cfg.resale_tiers with - | v
    · rw [hlk] at hp
      exact absurd hp (by simp [Option.getD, firstPattern])
    · rw [hlk] at hp
      exact hpat (key, v) (lookupA_mem key _ v hlk) p (firstPattern_mem _ _ p hp)
  rw [checkResaleTier, if_neg (fun h => h hcat)]
  rcases scanTiers_facts cfg.resale_tiers _ hfree with
    hnone | ⟨r, t, hsome, hname, hpos, hneg⟩
  · refine ⟨resaleTierDefault, .WEAK, by simp only [hnone], by decide, ?_, ?_⟩
    · intro t2 hne
      cases t2 with
      | STRONG => exact fun h => absurd h (by decide)
      | PLAUSIBLE => exact fun h => absurd h (by decide)
      | WEAK => exact absurd rfl hne
      | IMPLAUSIBLE => exact fun h => absurd h (by decide)
    · intro pre rest hpre
      rw [findResaleTier_skip pre _ hpre]
      refine findResaleTier_cons _ _ _ rfl (by decide) ?_
      intro t2 hne
      cases t2 with
      | STRONG => exact fun h => absurd h (by decide)
      | PLAUSIBLE => exact fun h => absurd h (by decide)
      | WEAK => exact absurd rfl hne
      | IMPLAUSIBLE => exact fun h => absurd h (by decide)
  · refine ⟨r, t, by simp only [hsome], hpos, hneg, ?_⟩
    intro pre rest hpre
    rw [findResaleTier_skip pre _ hpre]
    exact findResaleTier_cons r rest t hname hpos hneg

/-- Resale-tier configuration with a single implausible-tier pattern. -/
def cfgLawFirmTier : Config :=
  { resale_tiers := [(str "TIER_4_IMPLAUSIBLE",
      { patterns := [str "law firm"] })] }

/-- A resale claim from a law firm. -/
def fieldsLawFirm : ExtractedFields :=
  { purchaser_name := some (str "Dewey LLP"),
    business_type := some (str "Law Firm"),
    exemption_reason := some (str "resale") }

set_option maxRecDepth 8192 in
/-- C8 (witness): the law-firm resale claim produces a resale-tier result
whose message round-trips through `_find_resale_tier`. -/
theorem check_resale_tier_round_trip_witness :
    ∃ (r : CheckResult) (t : ResaleTier),
      checkResaleTier cfgLawFirmTier fieldsLawFirm EntityType.FOR_PROFIT =
        some r ∧
      ((str "TIER=" ++ tierLabel t) <:+: upperStr r.message) ∧
      (∀ t2 : ResaleTier, t2 ≠ t →
        ¬ ((str "TIER=" ++ tierLabel t2) <:+: upperStr r.message)) ∧
      (∀ pre rest : List CheckResult,
        (∀ c ∈ pre, c.check_name ≠ str "reasonableness.resale_tier") →
        findResaleTier (pre ++ r :: rest) = some t) :=
  check_resale_tier_round_trip cfgLawFirmTier fieldsLawFirm
    EntityType.FOR_PROFIT (by decide) (by decide)

end CertBot
